import Mathlib

/-!
Shallow embedding of the simulation core of the Unit2 arcade game
(src/Unit2/src/main.rs and src/Unit2/src/enemy_ai.rs).

Modelling conventions:
* f32 values are modelled as exact rationals.
* usize counters and indices are modelled as naturals; the game-state tag and
  the pending-transition flag are the small integers used by the source.
* thread_rng().gen_range calls are modelled by an oracle stream consumed in
  program order; f32 trigonometry (cos, sin, the constant pi) is modelled by
  oracle functions, so that spawned velocities keep their symbolic angles.
* sounds, the GPU, window events and texture loading are outside the core and
  are dropped; the input snapshot is a record of booleans passed per frame.
-/

namespace Unit2Game

/-- Screen-space or atlas-space rectangle: four f32 components of the source
arrays, modelled as rationals. -/
structure Quad where
  q0 : ℚ
  q1 : ℚ
  q2 : ℚ
  q3 : ℚ
  deriving DecidableEq

/-- Drawable attribute record of one sprite slot (struct GPUSprite). -/
structure GPUSprite where
  screen_region : Quad
  sheet_region : Quad
  deriving DecidableEq

/-- GPUSprite::zeroed(): the all-zero record that renders nothing. -/
def GPUSprite.zeroed : GPUSprite := ⟨⟨0, 0, 0, 0⟩, ⟨0, 0, 0, 0⟩⟩

/-- Sprite sheet resolution constant of the source, (12.0, 16.0). -/
def SPRITE_SHEET_RESOLUTION : ℚ × ℚ := (12, 16)

/-- The sprite slot registry (struct SpriteHolder): parallel lists of
attribute records and active flags. -/
structure SpriteHolder where
  sprites : List GPUSprite
  active : List Bool
  deriving DecidableEq

/-- Scan of the active list for the first inactive slot, carrying the index
accumulator; models the for loop of SpriteHolder::get_next_index. -/
def findFree : List Bool → ℕ → Option ℕ
  | [], _ => none
  | b :: rest, a => if b then findFree rest (a + 1) else some a

/-- SpriteHolder::get_next_index: return the first inactive index and mark it
active; if every slot is active the loop falls through and returns 0 without
touching the registry. -/
def SpriteHolder.get_next_index (sh : SpriteHolder) : ℕ × SpriteHolder :=
  match findFree sh.active 0 with
  | some i => (i, { sh with active := sh.active.set i true })
  | none => (0, sh)

/-- SpriteHolder::remove_sprite: deactivate the slot and zero its record. -/
def SpriteHolder.remove_sprite (sh : SpriteHolder) (i : ℕ) : SpriteHolder :=
  { sh with active := sh.active.set i false,
            sprites := sh.sprites.set i GPUSprite.zeroed }

/-- SpriteHolder::set_sprite: flag the slot as in use and store the record. -/
def SpriteHolder.set_sprite (sh : SpriteHolder) (i : ℕ) (s : GPUSprite) : SpriteHolder :=
  { sh with active := sh.active.set i true,
            sprites := sh.sprites.set i s }

/-- Free function set_sprite of the source: select an atlas cell for a
sprite, dividing by the sheet resolution. -/
def set_sprite (s : GPUSprite) (index : ℚ × ℚ) : GPUSprite :=
  { s with sheet_region :=
      ⟨index.1 / SPRITE_SHEET_RESOLUTION.1, index.2 / SPRITE_SHEET_RESOLUTION.2,
       1 / SPRITE_SHEET_RESOLUTION.1, 1 / SPRITE_SHEET_RESOLUTION.2⟩ }

/-- Axis-aligned rectangle overlap test, inclusive on all boundaries; this is
the condition used verbatim by both branches of Projectile::check_collision. -/
def collides (posA sizeA posB sizeB : ℚ × ℚ) : Prop :=
  posA.2 ≤ posB.2 + sizeB.2 ∧ posA.2 + sizeA.2 ≥ posB.2 ∧
  posA.1 ≤ posB.1 + sizeB.1 ∧ posA.1 + sizeA.1 ≥ posB.1

instance collidesDecidable (pA sA pB sB : ℚ × ℚ) : Decidable (collides pA sA pB sB) := by
  unfold collides; infer_instance

/-- Projectile record of the source. -/
structure Projectile where
  pos : ℚ × ℚ
  size : ℚ × ℚ
  speed : ℚ
  velocity : ℚ × ℚ
  sprite_index : ℕ
  sprite : GPUSprite
  is_dead : Bool
  player_spawned : Bool
  deriving DecidableEq

/-- Projectile::kill. -/
def Projectile.kill (p : Projectile) : Projectile := { p with is_dead := true }

/-- Health bar record of the source. -/
structure HealthBar where
  currval : ℚ
  maxval : ℚ
  bar_pos : Quad
  units_per_pixel : ℚ
  sprite_bar : GPUSprite
  sprite_border : GPUSprite
  sprite_index_bar : ℕ
  sprite_index_border : ℕ
  deriving DecidableEq

/-- Player record of the source. -/
structure Player where
  pos : ℚ × ℚ
  size : ℚ × ℚ
  speed : ℚ
  velocity : ℚ × ℚ
  sprite_index : ℕ
  facing_right : Bool
  sprite : GPUSprite
  charges : ℕ
  deriving DecidableEq

/-- Enemy record of the source. -/
structure Enemy where
  pos : ℚ × ℚ
  size : ℚ × ℚ
  speed : ℚ
  velocity : ℚ × ℚ
  frame : ℚ
  sprite_index : ℕ
  sprite_index_eyes : ℕ
  sprite : GPUSprite
  sprite_eyes : GPUSprite
  health_bar : HealthBar
  deriving DecidableEq

/-- Deterministic model of the effectful collaborators: pi, cos and sin stand
for the f32 trigonometry, and rand models the stream of
thread_rng().gen_range results, consumed in program order. -/
structure Oracle where
  pi : ℚ
  cos : ℚ → ℚ
  sin : ℚ → ℚ
  rand : ℕ → ℚ

/-- Player::damage (an associated function in the source): subtract from the
player health bar; on crossing to a value at most 0 set the pending
transition to 2 during state 1 and to 7 during state 6. -/
def Player.damage (amount : ℚ) (hb : HealthBar) (fl : ℕ) (gs : ℕ) : HealthBar × ℕ :=
  let hb2 := { hb with currval := hb.currval - amount }
  if hb2.currval ≤ 0 then
    if gs = 1 then (hb2, 2)
    else if gs = 6 then (hb2, 7)
    else (hb2, fl)
  else (hb2, fl)

/-- Enemy::damage: subtract from the enemy health bar; on crossing to a value
at most 0 set the pending transition flag to 4. -/
def Enemy.damage (e : Enemy) (amount : ℚ) (fl : ℕ) : Enemy × ℕ :=
  let hb2 := { e.health_bar with currval := e.health_bar.currval - amount }
  if hb2.currval ≤ 0 then ({ e with health_bar := hb2 }, 4)
  else ({ e with health_bar := hb2 }, fl)

/-- Projectile::move_proj: integrate position by velocity; below the bottom
edge, kill the projectile and (during state 1 only) play a sound and damage
the player by 1.0; above y = 1000 kill it silently; finally sync the sprite
screen region. -/
def Projectile.move_proj (p : Projectile) (hb : HealthBar) (fl : ℕ) (gs : ℕ) :
    Projectile × HealthBar × ℕ :=
  let p1 := { p with pos := (p.pos.1 + p.velocity.1, p.pos.2 + p.velocity.2) }
  let r :=
    if p1.pos.2 < 0 then
      if gs = 1 then
        let dr := Player.damage 1 hb fl 1
        (p1.kill, dr.1, dr.2)
      else (p1.kill, hb, fl)
    else if p1.pos.2 > 1000 then (p1.kill, hb, fl)
    else (p1, hb, fl)
  ({ r.1 with sprite := { r.1.sprite with screen_region :=
      ⟨r.1.pos.1, r.1.pos.2, r.1.size.1, r.1.size.2⟩ } }, r.2.1, r.2.2)

/-- Projectile::check_collision: a player-spawned projectile tests against the
enemy rectangle and damages the enemy by 1.0 on overlap; an enemy-spawned
projectile tests against the player rectangle, increments the charge counter
during state 1, damages the player during state 6, and is killed on overlap
either way. -/
def Projectile.check_collision (p : Projectile) (player : Player) (enemy : Enemy)
    (fl : ℕ) (hb : HealthBar) (gs : ℕ) :
    Projectile × Player × Enemy × ℕ × HealthBar :=
  if p.player_spawned then
    if collides p.pos p.size enemy.pos enemy.size then
      let dr := enemy.damage 1 fl
      (p.kill, player, dr.1, dr.2, hb)
    else (p, player, enemy, fl, hb)
  else
    if collides p.pos p.size player.pos player.size then
      if gs = 1 then
        (p.kill, { player with charges := player.charges + 1 }, enemy, fl, hb)
      else if gs = 6 then
        let dr := Player.damage 1 hb fl 6
        (p.kill, player, enemy, dr.2, dr.1)
      else (p.kill, player, enemy, fl, hb)
    else (p, player, enemy, fl, hb)

/-- Projectile::clean_dead: release the sprite slot of a projectile. -/
def Projectile.clean_dead (p : Projectile) (sh : SpriteHolder) : SpriteHolder :=
  sh.remove_sprite p.sprite_index

/-- Player::add_speed. -/
def Player.add_speed (pl : Player) (nv : ℚ × ℚ) : Player :=
  { pl with velocity := (pl.velocity.1 + nv.1, pl.velocity.2 + nv.2) }

/-- Player::player_loop: horizontal motion clamped to the 0 ..= 960 band,
facing update, sprite sync into the registry. -/
def Player.player_loop (pl : Player) (sh : SpriteHolder) : Player × SpriteHolder :=
  let pl1 :=
    if pl.velocity.1 > 0 then
      let x := pl.pos.1 + pl.speed
      { pl with pos := (if x > 960 then 960 else x, pl.pos.2), facing_right := true }
    else pl
  let pl2 :=
    if pl1.velocity.1 < 0 then
      let x := pl1.pos.1 - pl1.speed
      { pl1 with pos := (if x < 0 then 0 else x, pl1.pos.2), facing_right := false }
    else pl1
  let pl3 := { pl2 with sprite := { pl2.sprite with screen_region :=
      ⟨pl2.pos.1, pl2.pos.2, pl2.size.1, pl2.size.2⟩ } }
  let pl4 := { pl3 with sprite :=
      (if pl3.facing_right then set_sprite pl3.sprite (0, 0)
       else set_sprite pl3.sprite (2, 0)) }
  (pl4, sh.set_sprite pl4.sprite_index pl4.sprite)

/-- Visual record given to every enemy-spawned projectile (make_projectile). -/
def enemyProjSprite : GPUSprite :=
  { screen_region := ⟨2, 32, 64, 64⟩,
    sheet_region := ⟨0 / 12, 1 / 16, 1 / 12, 1 / 16⟩ }

/-- Visual record given to every player-spawned projectile
(make_player_projectile). -/
def playerProjSprite : GPUSprite :=
  { screen_region := ⟨2, 32, 64, 64⟩,
    sheet_region := ⟨3 / 12, 2 / 16, 1 / 12, 1 / 16⟩ }

/-- make_projectile: append an enemy-spawned projectile record. -/
def make_projectile (projectiles : List Projectile) (index : ℕ)
    (spawn_pos velocity : ℚ × ℚ) : List Projectile :=
  projectiles ++ [{ pos := spawn_pos, size := (64, 64), speed := 10,
                    velocity := velocity, sprite_index := index,
                    sprite := enemyProjSprite,
                    is_dead := false, player_spawned := false }]

/-- make_player_projectile: append a player-spawned projectile record. -/
def make_player_projectile (projectiles : List Projectile) (index : ℕ)
    (spawn_pos velocity : ℚ × ℚ) : List Projectile :=
  projectiles ++ [{ pos := spawn_pos, size := (64, 64), speed := 10,
                    velocity := velocity, sprite_index := index,
                    sprite := playerProjSprite,
                    is_dead := false, player_spawned := true }]

/-- Player::spawn_new_projectile: with at least 3 charges, shoot one upward
projectile from below the player and reset the charges to 0; otherwise do
nothing. -/
def Player.spawn_new_projectile (pl : Player) (speed : ℚ)
    (projectiles : List Projectile) (sh : SpriteHolder) :
    Player × List Projectile × SpriteHolder :=
  if 3 ≤ pl.charges then
    let velocity := (0, speed)
    let pos := (pl.pos.1, pl.pos.2 + pl.size.2)
    let al := sh.get_next_index
    ({ pl with charges := 0 }, make_player_projectile projectiles al.1 pos velocity, al.2)
  else (pl, projectiles, sh)

/-- Enemy::spawn_new_projectile: spawn position x = 450 plus a random offset
(one rand draw), y = 650; allocate a slot and append the projectile. -/
def Enemy.spawn_new_projectile (O : Oracle) (_e : Enemy) (ctr : ℕ)
    (projectiles : List Projectile) (sh : SpriteHolder) (velocity : ℚ × ℚ) :
    ℕ × List Projectile × SpriteHolder :=
  let pos := (450 + O.rand ctr, 650)
  let al := sh.get_next_index
  (ctr + 1, make_projectile projectiles al.1 pos velocity, al.2)

/-- Closed set of AI strategies of enemy_ai.rs: Level0AI, Level1AI (cooldown,
max_cooldown) and Level6AI (cooldown, max_cooldown). -/
inductive AIKind where
  | level0 : AIKind
  | level1 (cooldown max_cooldown : ℕ) : AIKind
  | level6 (cooldown max_cooldown : ℕ) : AIKind
  deriving DecidableEq

/-- The ai_loop methods of enemy_ai.rs. Level0AI does nothing. Level1AI
counts a cooldown down and shoots one projectile at a random angle when it
expires. Level6AI free-runs its counter and follows the three phase rules of
the boss pattern. Random draws consume the oracle stream in program order:
a gen_range angle first, then one positional draw inside each spawn. -/
def aiLoop (O : Oracle) (ai : AIKind) (ctr : ℕ) (projectiles : List Projectile)
    (sh : SpriteHolder) (e : Enemy) : AIKind × ℕ × List Projectile × SpriteHolder :=
  match ai with
  | .level0 => (.level0, ctr, projectiles, sh)
  | .level1 cd mx =>
      if 0 < cd then (.level1 (cd - 1) mx, ctr, projectiles, sh)
      else
        let angle := O.rand ctr
        let velocity := (O.cos angle * 6, O.sin angle * 6)
        let r := Enemy.spawn_new_projectile O e (ctr + 1) projectiles sh velocity
        (.level1 mx mx, r.1, r.2.1, r.2.2)
  | .level6 cd mx =>
      let c := cd + 1
      if 0 < c ∧ c ≤ 600 then
        if c % 100 < 55 then
          let angle := 11 * O.pi / 8 + O.sin ((c : ℚ) / 55) * (3 * O.pi / 8)
          let velocity := (O.cos angle * 6, O.sin angle * 6)
          let r := Enemy.spawn_new_projectile O e ctr projectiles sh velocity
          (.level6 c mx, r.1, r.2.1, r.2.2)
        else (.level6 c mx, ctr, projectiles, sh)
      else if 600 < c ∧ c ≤ 1200 then
        if c % 30 = 0 then
          let angle := O.rand ctr
          let velocity := (O.cos angle * 6, O.sin angle * 6)
          let r1 := Enemy.spawn_new_projectile O e (ctr + 1) projectiles sh velocity
          let angle2 := angle + 2 * O.pi / 8
          let velocity_2 := (O.cos angle2 * 6, O.sin angle2 * 6)
          let r2 := Enemy.spawn_new_projectile O e r1.1 r1.2.1 r1.2.2 velocity_2
          let angle3 := angle2 + 2 * O.pi / 8
          let velocity_3 := (O.cos angle3 * 6, O.sin angle3 * 6)
          let r3 := Enemy.spawn_new_projectile O e r2.1 r2.2.1 r2.2.2 velocity_3
          (.level6 c mx, r3.1, r3.2.1, r3.2.2)
        else (.level6 c mx, ctr, projectiles, sh)
      else if 1200 < c ∧ c ≤ 1800 then
        if c % 20 < 3 then
          let angle := 11 * O.pi / 8 + O.sin ((c : ℚ) / 7) * (3 * O.pi / 8)
          let velocity := (O.cos angle * 6, O.sin angle * 6)
          let r := Enemy.spawn_new_projectile O e ctr projectiles sh velocity
          (.level6 c mx, r.1, r.2.1, r.2.2)
        else (.level6 c mx, ctr, projectiles, sh)
      else (.level6 c mx, ctr, projectiles, sh)

/-- HealthBar::health_bar_loop: clamp the current value at 0, size the fill
bar proportionally, and sync both sprites into the registry. -/
def HealthBar.health_bar_loop (hb : HealthBar) (sh : SpriteHolder) :
    HealthBar × SpriteHolder :=
  let hb1 := if hb.currval < 0 then { hb with currval := 0 } else hb
  let hb2 := { hb1 with sprite_bar := { hb1.sprite_bar with screen_region :=
      ⟨hb1.bar_pos.q0, hb1.bar_pos.q1 + hb1.units_per_pixel,
       hb1.bar_pos.q2 * (hb1.currval / hb1.maxval),
       hb1.bar_pos.q3 - 2 * hb1.units_per_pixel⟩ } }
  let hb3 := { hb2 with sprite_border := { hb2.sprite_border with screen_region :=
      ⟨hb2.bar_pos.q0, hb2.bar_pos.q1, hb2.bar_pos.q2, hb2.bar_pos.q3⟩ } }
  let sh2 := (sh.set_sprite hb3.sprite_index_bar hb3.sprite_bar).set_sprite
      hb3.sprite_index_border hb3.sprite_border
  (hb3, sh2)

/-- Entity of the source: the enemy body together with its boxed AI. -/
structure Entity where
  enemy : Enemy
  ai : AIKind
  deriving DecidableEq

/-- Entity::enemy_loop: integrate the enemy position, sync and animate the
two sprites, run the AI step, reposition the health bar, advance the
animation frame by 0.05, write the sprites and run the health bar loop. -/
def Entity.enemy_loop (O : Oracle) (ent : Entity) (ctr : ℕ)
    (projectiles : List Projectile) (sh : SpriteHolder) :
    Entity × ℕ × List Projectile × SpriteHolder :=
  let e0 := ent.enemy
  let e1 := { e0 with pos := (e0.pos.1 + e0.velocity.1, e0.pos.2 + e0.velocity.2) }
  let e2 := { e1 with sprite := { e1.sprite with screen_region :=
      ⟨e1.pos.1, e1.pos.2, e1.size.1, e1.size.2⟩ } }
  let n := (Int.floor (e2.frame * 20)).toNat
  let spr :=
    if n % 20 = 0 then
      { e2.sprite with sheet_region := ⟨1 / 12, 1 / 16, 1 / 12, 1 / 16⟩ }
    else if n % 10 = 0 then
      { e2.sprite with sheet_region := ⟨2 / 12, 1 / 16, 1 / 12, 1 / 16⟩ }
    else e2.sprite
  let e3 := { e2 with sprite := spr }
  let e4 := { e3 with sprite_eyes := { e3.sprite_eyes with screen_region :=
      ⟨e3.pos.1, e3.pos.2 - 2 + 4 * O.sin e3.frame, e3.size.1, e3.size.2⟩ } }
  let r := aiLoop O ent.ai ctr projectiles sh e4
  let e5 := { e4 with health_bar := { e4.health_bar with bar_pos :=
      ⟨e4.pos.1 - 32, e4.pos.2 + 72, e4.health_bar.bar_pos.q2, e4.health_bar.bar_pos.q3⟩ } }
  let e6 := { e5 with frame := e5.frame + 1 / 20 }
  let sh3 := (r.2.2.2.set_sprite e6.sprite_index e6.sprite).set_sprite
      e6.sprite_index_eyes e6.sprite_eyes
  let hr := e6.health_bar.health_bar_loop sh3
  ({ ent with enemy := { e6 with health_bar := hr.1 }, ai := r.1 }, r.2.1, r.2.2.1, hr.2)

/-- Screen record of the source. -/
structure Screen where
  sprite : GPUSprite
  sprite_index : ℕ
  deriving DecidableEq

/-- Per-frame input snapshot consumed by main_event_loop: the key predicates
it queries. -/
structure Input where
  right_pressed : Bool
  left_pressed : Bool
  right_released : Bool
  left_released : Bool
  space_down : Bool
  deriving DecidableEq

/-- The big holder struct threading every major variable of the game
(struct GameStateHolder); the GameState wrapper and the TransitionFlag
wrapper are inlined as the naturals game_state and trans_flag, and rng_ctr
tracks the oracle stream position. -/
structure GameStateHolder where
  player : Player
  enemy : Entity
  sprite_holder : SpriteHolder
  projectiles : List Projectile
  player_health_bar : HealthBar
  game_state : ℕ
  background : Screen
  title_screen : Screen
  death_screen : Screen
  cleared_screen : Screen
  win_screen : Screen
  title_screen_2 : Screen
  trans_flag : ℕ
  rng_ctr : ℕ
  deriving DecidableEq

/-- Initial player sprite record shared by the level loaders. -/
def playerSprite : GPUSprite :=
  { screen_region := ⟨32, 128, 64, 64⟩,
    sheet_region := ⟨0 / 12, 0 / 16, 1 / 12, 1 / 16⟩ }

/-- Initial enemy body sprite record shared by the level loaders. -/
def enemySprite : GPUSprite :=
  { screen_region := ⟨32, 128, 64, 64⟩,
    sheet_region := ⟨1 / 12, 1 / 16, 1 / 12, 1 / 16⟩ }

/-- Initial enemy eyes sprite record shared by the level loaders. -/
def enemyEyesSprite : GPUSprite :=
  { screen_region := ⟨32, 128, 64, 64⟩,
    sheet_region := ⟨3 / 12, 1 / 16, 1 / 12, 1 / 16⟩ }

/-- Health bar border sprite record shared by the level loaders. -/
def hbBorderSprite : GPUSprite :=
  { screen_region := ⟨32, 32, 128, 24⟩,
    sheet_region := ⟨0 / 12, 2 / 16, 2 / 12, (6 / 16) / 16⟩ }

/-- Enemy health bar fill sprite record shared by the level loaders. -/
def enemyHbBarSprite : GPUSprite :=
  { screen_region := ⟨32, 36, 128, 16⟩,
    sheet_region := ⟨0 / 12, (2 + 12 / 16) / 16, 2 / 12, (4 / 16) / 16⟩ }

/-- Player health bar fill sprite record shared by the level loaders. -/
def playerHbBarSprite : GPUSprite :=
  { screen_region := ⟨32, 36, 128, 16⟩,
    sheet_region := ⟨0 / 12, (2 + 7 / 16) / 16, 2 / 12, (4 / 16) / 16⟩ }

/-- Fresh player record used by the level loaders; the slot index is the
argument. -/
def freshPlayer (i : ℕ) : Player :=
  { pos := (400, 100), size := (64, 64), speed := 6, velocity := (0, 0),
    sprite_index := i, facing_right := true, sprite := playerSprite, charges := 0 }

/-- Fresh enemy record used by the level loaders: body and eyes slot indices,
health pool, and the health bar slot indices. -/
def freshEnemy (i ieyes : ℕ) (health : ℚ) (iborder ibar : ℕ) : Enemy :=
  let hb : HealthBar :=
    { currval := health, maxval := health,
      bar_pos := ⟨32, 600, 128, 24⟩, units_per_pixel := 4,
      sprite_border := hbBorderSprite, sprite_index_border := iborder,
      sprite_bar := enemyHbBarSprite, sprite_index_bar := ibar }
  { pos := (450, 650), size := (64, 64), speed := 6, velocity := (0, 0),
    sprite_index := i, sprite_index_eyes := ieyes, frame := 0,
    sprite := enemySprite, sprite_eyes := enemyEyesSprite,
    health_bar := hb }

/-- Fresh player health bar used by the level loaders. -/
def freshPlayerHb (health : ℚ) (iborder ibar : ℕ) : HealthBar :=
  { currval := health, maxval := health, bar_pos := ⟨32, 32, 128, 24⟩,
    units_per_pixel := 4, sprite_border := hbBorderSprite,
    sprite_index_border := iborder, sprite_bar := playerHbBarSprite,
    sprite_index_bar := ibar }

/-- load_level_1: construct the player, a 10-health enemy with the periodic
Level1AI, and the player health bar, allocating seven slots in source
order. -/
def load_level_1 (g : GameStateHolder) : GameStateHolder :=
  let a1 := g.sprite_holder.get_next_index
  let player := freshPlayer a1.1
  let a2 := a1.2.get_next_index
  let a3 := a2.2.get_next_index
  let a4 := a3.2.get_next_index
  let a5 := a4.2.get_next_index
  let enemy : Entity :=
    { enemy := freshEnemy a2.1 a3.1 10 a4.1 a5.1, ai := .level1 0 40 }
  let a6 := a5.2.get_next_index
  let a7 := a6.2.get_next_index
  let phb := freshPlayerHb 10 a6.1 a7.1
  { g with player := player, enemy := enemy, player_health_bar := phb,
           sprite_holder := a7.2 }

/-- load_level_6: construct the player, an 1800-health boss with the
multi-phase Level6AI, and a 1-health player health bar, allocating seven
slots in source order. -/
def load_level_6 (g : GameStateHolder) : GameStateHolder :=
  let a1 := g.sprite_holder.get_next_index
  let player := freshPlayer a1.1
  let a2 := a1.2.get_next_index
  let a3 := a2.2.get_next_index
  let a4 := a3.2.get_next_index
  let a5 := a4.2.get_next_index
  let enemy : Entity :=
    { enemy := freshEnemy a2.1 a3.1 1800 a4.1 a5.1, ai := .level6 0 40 }
  let a6 := a5.2.get_next_index
  let a7 := a6.2.get_next_index
  let phb := freshPlayerHb 1 a6.1 a7.1
  { g with player := player, enemy := enemy, player_health_bar := phb,
           sprite_holder := a7.2 }

/-- load_dead_level: release the seven slots of the outgoing level, purge
every projectile (kill, release its slot, drop it), and install placeholder
entities bound to slot 0 with the idle Level0AI. -/
def load_dead_level (g : GameStateHolder) : GameStateHolder :=
  let sh1 := g.sprite_holder.remove_sprite g.player.sprite_index
  let sh2 := sh1.remove_sprite g.enemy.enemy.sprite_index
  let sh3 := sh2.remove_sprite g.enemy.enemy.sprite_index_eyes
  let sh4 := sh3.remove_sprite g.enemy.enemy.health_bar.sprite_index_bar
  let sh5 := sh4.remove_sprite g.enemy.enemy.health_bar.sprite_index_border
  let sh6 := sh5.remove_sprite g.player_health_bar.sprite_index_bar
  let sh7 := sh6.remove_sprite g.player_health_bar.sprite_index_border
  let sh8 := g.projectiles.foldl (fun acc p => p.clean_dead acc) sh7
  { g with sprite_holder := sh8, projectiles := [],
           player := freshPlayer 0,
           enemy := { enemy := freshEnemy 0 0 10 0 0, ai := .level0 },
           player_health_bar := freshPlayerHb 10 0 0 }

/-- Helper for the transition effects that restore a screen overlay to its
visible rectangle (160, 32, 720, 720). -/
def scrOn (s : Screen) : Screen :=
  { s with sprite := { s.sprite with screen_region := ⟨160, 32, 720, 720⟩ } }

/-- transition_to_state: the state machine of the source. The outer match is
on the current state, the inner on the requested state; an unlisted pair only
logs and leaves the state unchanged (cases 1 and 6 still reset the pending
transition flag first, as the source does). -/
def transition_to_state (new_state : ℕ) (g : GameStateHolder) : GameStateHolder :=
  match g.game_state with
  | 0 =>
    match new_state with
    | 1 => load_level_1 { g with game_state := 1 }
    | 5 => { g with game_state := 5, title_screen_2 := scrOn g.title_screen_2 }
    | _ => g
  | 1 =>
    let g1 := { g with trans_flag := 0 }
    match new_state with
    | 2 => load_dead_level { g1 with game_state := 2, death_screen := scrOn g1.death_screen }
    | 3 => load_dead_level { g1 with game_state := 3, cleared_screen := scrOn g1.cleared_screen }
    | 4 => load_dead_level { g1 with game_state := 4, win_screen := scrOn g1.win_screen }
    | _ => g1
  | 2 =>
    match new_state with
    | 1 => load_level_1 { g with game_state := 1 }
    | _ => g
  | 3 =>
    match new_state with
    | 1 => load_level_1 { g with game_state := 1 }
    | _ => g
  | 5 =>
    match new_state with
    | 6 => load_level_6 { g with game_state := 6 }
    | 0 => { g with game_state := 0, title_screen := scrOn g.title_screen }
    | _ => g
  | 6 =>
    let g1 := { g with trans_flag := 0 }
    match new_state with
    | 7 => load_dead_level { g1 with game_state := 7, death_screen := scrOn g1.death_screen }
    | 3 => load_dead_level { g1 with game_state := 3, cleared_screen := scrOn g1.cleared_screen }
    | 4 => load_dead_level { g1 with game_state := 4, win_screen := scrOn g1.win_screen }
    | _ => g1
  | 7 =>
    match new_state with
    | 6 => load_level_6 { g with game_state := 6 }
    | _ => g
  | _ => g

/-- The four movement key checks opening main_event_loop, acting on the
player velocity. -/
def moved_player (inp : Input) (pl : Player) : Player :=
  let pl1 := if inp.right_pressed then pl.add_speed (pl.speed, 0) else pl
  let pl2 := if inp.left_pressed then pl1.add_speed (-pl1.speed, 0) else pl1
  let pl3 := if inp.right_released then pl2.add_speed (-pl2.speed, 0) else pl2
  if inp.left_released then pl3.add_speed (pl3.speed, 0) else pl3

/-- The space-bar shoot attempt of main_event_loop. -/
def shoot_phase (inp : Input) (pl : Player) (projs : List Projectile)
    (sh : SpriteHolder) : Player × List Projectile × SpriteHolder :=
  if inp.space_down then pl.spawn_new_projectile 10 projs sh else (pl, projs, sh)

/-- Opening phase of main_event_loop: the four movement key checks, the
background sprite write, the space-bar shoot attempt, the player loop and the
player health bar loop. -/
def input_phase (inp : Input) (g : GameStateHolder) : GameStateHolder :=
  let sh1 := g.sprite_holder.set_sprite g.background.sprite_index g.background.sprite
  let s := shoot_phase inp (moved_player inp g.player) g.projectiles sh1
  let pr := s.1.player_loop s.2.2
  let hr := g.player_health_bar.health_bar_loop pr.2
  { g with player := pr.1, projectiles := s.2.1, sprite_holder := hr.2,
           player_health_bar := hr.1 }

/-- The unconditional boss drain of main_event_loop: during state 6 the enemy
is damaged by 1.0 every frame, before the enemy loop runs. -/
def damage_phase (g : GameStateHolder) : GameStateHolder :=
  if g.game_state = 6 then
    let dr := g.enemy.enemy.damage 1 g.trans_flag
    { g with enemy := { g.enemy with enemy := dr.1 }, trans_flag := dr.2 }
  else g

/-- The enemy loop phase of main_event_loop. -/
def enemy_phase (O : Oracle) (g : GameStateHolder) : GameStateHolder :=
  let r := g.enemy.enemy_loop O g.rng_ctr g.projectiles g.sprite_holder
  { g with enemy := r.1, rng_ctr := r.2.1, projectiles := r.2.2.1,
           sprite_holder := r.2.2.2 }

/-- One iteration of the projectile for-loop of main_event_loop: move, run
collision, write the sprite. The accumulator threads the player, the enemy
body, the player health bar, the flag, the registry and the projectiles
already processed. -/
def proj_step (gs : ℕ)
    (acc : Player × Enemy × HealthBar × ℕ × SpriteHolder × List Projectile)
    (p : Projectile) :
    Player × Enemy × HealthBar × ℕ × SpriteHolder × List Projectile :=
  let m := p.move_proj acc.2.2.1 acc.2.2.2.1 gs
  let c := m.1.check_collision acc.1 acc.2.1 m.2.2 m.2.1 gs
  let sh2 := acc.2.2.2.2.1.set_sprite c.1.sprite_index c.1.sprite
  (c.2.1, c.2.2.1, c.2.2.2.2, c.2.2.2.1, sh2, acc.2.2.2.2.2 ++ [c.1])

/-- The projectile update-and-collision pass of main_event_loop. -/
def proj_phase (g : GameStateHolder) : GameStateHolder :=
  let r := g.projectiles.foldl (proj_step g.game_state)
      (g.player, g.enemy.enemy, g.player_health_bar, g.trans_flag, g.sprite_holder, [])
  { g with player := r.1, enemy := { g.enemy with enemy := r.2.1 },
           player_health_bar := r.2.2.1, trans_flag := r.2.2.2.1,
           sprite_holder := r.2.2.2.2.1, projectiles := r.2.2.2.2.2 }

/-- The dead-projectile sweep of main_event_loop: release the slot of every
dead projectile, then retain only the live ones. -/
def cleanup_phase (g : GameStateHolder) : GameStateHolder :=
  let sh2 := g.projectiles.foldl
      (fun acc p => if p.is_dead then p.clean_dead acc else acc) g.sprite_holder
  { g with sprite_holder := sh2,
           projectiles := g.projectiles.filter (fun p => !p.is_dead) }

/-- The pending-transition check closing main_event_loop. -/
def trans_phase (g : GameStateHolder) : GameStateHolder :=
  if g.trans_flag ≠ 0 then transition_to_state g.trans_flag g else g

/-- Everything main_event_loop does before the pending-transition check. -/
def frame_pre (O : Oracle) (inp : Input) (g : GameStateHolder) : GameStateHolder :=
  cleanup_phase (proj_phase (enemy_phase O (damage_phase (input_phase inp g))))

/-- main_event_loop: one full gameplay frame. -/
def main_event_loop (O : Oracle) (inp : Input) (g : GameStateHolder) : GameStateHolder :=
  trans_phase (frame_pre O inp g)

/-- Iterated frames: iterFrame O I k g is the holder after the first k frames,
frame number j consuming the input snapshot I j. -/
def iterFrame (O : Oracle) (I : ℕ → Input) : ℕ → GameStateHolder → GameStateHolder
  | 0, g => g
  | k + 1, g => main_event_loop O (I k) (iterFrame O I k g)

/-- The registry as run() builds it: 1000 zeroed, inactive slots. -/
def initialHolder : SpriteHolder :=
  { sprites := List.replicate 1000 GPUSprite.zeroed,
    active := List.replicate 1000 false }

/-- Allocate and release requests against the sprite slot registry. -/
inductive SlotOp where
  | alloc : SlotOp
  | release (i : ℕ) : SlotOp
  deriving DecidableEq

/-- Run a sequence of slot operations against a registry. -/
def runOps : SpriteHolder → List SlotOp → SpriteHolder
  | sh, [] => sh
  | sh, .alloc :: rest => runOps sh.get_next_index.2 rest
  | sh, .release i :: rest => runOps (sh.remove_sprite i) rest

/-- No-double-ownership property of a call sequence: every allocation in the
trace returns a slot that is inactive at the moment of the call (so the index
cannot still be held by a live owner). -/
def traceOk : SpriteHolder → List SlotOp → Prop
  | _, [] => True
  | sh, .alloc :: rest =>
      sh.active.get? sh.get_next_index.1 = some false ∧ traceOk sh.get_next_index.2 rest
  | sh, .release i :: rest => traceOk (sh.remove_sprite i) rest

/-- A call sequence never exhausts the registry: at every allocation some
slot is inactive. -/
def noExhaust : SpriteHolder → List SlotOp → Prop
  | _, [] => True
  | sh, .alloc :: rest => false ∈ sh.active ∧ noExhaust sh.get_next_index.2 rest
  | sh, .release i :: rest => noExhaust (sh.remove_sprite i) rest

/-- A small concrete holder used to instantiate general theorems. -/
def sampleSpriteHolder : SpriteHolder :=
  { sprites := List.replicate 8 GPUSprite.zeroed, active := List.replicate 8 false }

/-- A blank screen record used to instantiate general theorems. -/
def sampleScreen : Screen := ⟨GPUSprite.zeroed, 0⟩

/-- A small concrete whole-game state used to instantiate general theorems:
the title state with a fresh level-1 cast. -/
def sampleG : GameStateHolder :=
  { player := freshPlayer 0, enemy := ⟨freshEnemy 1 2 10 3 4, .level1 0 40⟩,
    sprite_holder := sampleSpriteHolder, projectiles := [],
    player_health_bar := freshPlayerHb 10 5 6, game_state := 0,
    background := sampleScreen, title_screen := sampleScreen,
    death_screen := sampleScreen, cleared_screen := sampleScreen,
    win_screen := sampleScreen, title_screen_2 := sampleScreen,
    trans_flag := 0, rng_ctr := 0 }

/-- A player-spawned projectile sitting near the bottom edge and moving
down, used to probe the bottom-edge branch of move_proj. -/
def cProj : Projectile :=
  { pos := (100, 5), size := (64, 64), speed := 10, velocity := (0, -10),
    sprite_index := 0, sprite := playerProjSprite, is_dead := false,
    player_spawned := true }

/-- A fully deterministic oracle with every draw equal to 0. -/
def oracle0 : Oracle := ⟨22 / 7, fun _ => 0, fun _ => 0, fun _ => 0⟩

/-- An oracle whose pi is 8 divided by 3, so that the phase-2 cone is the
interval from 3 to 11 thirds, and whose random stream always draws 3. -/
def oracleW : Oracle := ⟨8 / 3, fun _ => 0, fun _ => 0, fun _ => 3⟩

/-- Reduction of the scan over an active head. -/
theorem findFree_cons_true (t : List Bool) (a : ℕ) :
    findFree (true :: t) a = findFree t (a + 1) := rfl

/-- Reduction of the scan over an inactive head. -/
theorem findFree_cons_false (t : List Bool) (a : ℕ) :
    findFree (false :: t) a = some a := rfl

/-- Unfolding of get_next_index when the scan succeeds. -/
theorem get_next_index_eq_some (sh : SpriteHolder) (i : ℕ)
    (h : findFree sh.active 0 = some i) :
    sh.get_next_index = (i, { sh with active := sh.active.set i true }) := by
  unfold SpriteHolder.get_next_index
  rw [h]

/-- Unfolding of get_next_index when the scan fails. -/
theorem get_next_index_eq_none (sh : SpriteHolder)
    (h : findFree sh.active 0 = none) :
    sh.get_next_index = (0, sh) := by
  unfold SpriteHolder.get_next_index
  rw [h]

/-- Scanning a fully active block: the scan skips k active slots and lands on
the first inactive one. -/
theorem findFree_replicate_true_cons (t : List Bool) :
    ∀ (k a : ℕ), findFree (List.replicate k true ++ false :: t) a = some (a + k) := by
  intro k
  induction k with
  | zero => intro a; simp [findFree_cons_false]
  | succ k ih =>
    intro a
    rw [List.replicate_succ, List.cons_append, findFree_cons_true, ih (a + 1)]
    congr 1
    omega

/-- Scanning an all-active list fails. -/
theorem findFree_all_true (l : List Bool) :
    ∀ a : ℕ, (∀ b ∈ l, b = true) → findFree l a = none := by
  induction l with
  | nil => intro a _; rfl
  | cons b t ih =>
    intro a h
    have hb : b = true := h b (List.mem_cons_self b t)
    subst hb
    rw [findFree_cons_true]
    exact ih (a + 1) fun x hx => h x (List.mem_cons_of_mem _ hx)

/-- Soundness of the scan: a returned index is at least the accumulator and
points at an inactive slot. -/
theorem findFree_some_sound (l : List Bool) :
    ∀ a i : ℕ, findFree l a = some i → a ≤ i ∧ l.get? (i - a) = some false := by
  induction l with
  | nil => intro a i h; simp [findFree] at h
  | cons b t ih =>
    intro a i h
    cases b with
    | true =>
      rw [findFree_cons_true] at h
      obtain ⟨h1, h2⟩ := ih (a + 1) i h
      refine ⟨by omega, ?_⟩
      have he : i - a = (i - (a + 1)) + 1 := by omega
      rw [he, List.get?_cons_succ]
      exact h2
    | false =>
      rw [findFree_cons_false] at h
      obtain rfl : a = i := Option.some.inj h
      simp

/-- Completeness of the scan: the first inactive index is found. -/
theorem findFree_first (l : List Bool) :
    ∀ a i : ℕ, l.get? i = some false → (∀ j, j < i → l.get? j = some true) →
      findFree l a = some (a + i) := by
  induction l with
  | nil => intro a i h _; simp at h
  | cons b t ih =>
    intro a i h hlt
    cases i with
    | zero =>
      have hb : b = false := by simpa using h
      subst hb
      rw [findFree_cons_false]
      simp
    | succ j =>
      have hb : b = true := by simpa using hlt 0 (Nat.succ_pos j)
      subst hb
      rw [findFree_cons_true]
      rw [ih (a + 1) j (by simpa using h)
        (fun m hm => by simpa using hlt (m + 1) (by omega))]
      congr 1
      omega

/-- A nonempty set of inactive slots makes the scan succeed. -/
theorem findFree_mem_false (l : List Bool) :
    ∀ a : ℕ, false ∈ l → ∃ i, findFree l a = some i := by
  induction l with
  | nil => intro a h; simp at h
  | cons b t ih =>
    intro a h
    cases b with
    | true =>
      have ht : false ∈ t := by simpa using h
      obtain ⟨i, hi⟩ := ih (a + 1) ht
      exact ⟨i, by rw [findFree_cons_true]; exact hi⟩
    | false => exact ⟨a, findFree_cons_false t a⟩

/-- Setting the first inactive slot of a fully active block active extends
the block. -/
theorem set_replicate_true_cons (t : List Bool) :
    ∀ k : ℕ, (List.replicate k true ++ false :: t).set k true =
      List.replicate (k + 1) true ++ t := by
  intro k
  induction k with
  | zero => simp
  | succ k ih =>
    rw [List.replicate_succ, List.cons_append, List.set_cons_succ, ih]
    simp [List.replicate_succ]

/-- Allocation against a block-shaped registry: the first inactive slot is
returned and becomes active. -/
theorem get_next_index_block (s : List GPUSprite) (k m : ℕ) (hm : 0 < m) :
    SpriteHolder.get_next_index
        ⟨s, List.replicate k true ++ List.replicate m false⟩ =
      (k, ⟨s, List.replicate (k + 1) true ++ List.replicate (m - 1) false⟩) := by
  obtain ⟨m', rfl⟩ : ∃ m', m = m' + 1 := ⟨m - 1, by omega⟩
  have hrep : List.replicate (m' + 1) false = false :: List.replicate m' false :=
    List.replicate_succ ..
  rw [hrep]
  rw [get_next_index_eq_some _ k
    (by simpa using findFree_replicate_true_cons (List.replicate m' false) k 0)]
  rw [set_replicate_true_cons]
  simp

/-- Repeated allocation against a block-shaped registry keeps it
block-shaped. -/
theorem runOps_allocs (s : List GPUSprite) :
    ∀ n k m : ℕ, n ≤ m →
      runOps ⟨s, List.replicate k true ++ List.replicate m false⟩
          (List.replicate n .alloc) =
        ⟨s, List.replicate (k + n) true ++ List.replicate (m - n) false⟩ := by
  intro n
  induction n with
  | zero => intro k m _; simp [runOps]
  | succ n ih =>
    intro k m hnm
    rw [List.replicate_succ]
    simp only [runOps]
    rw [get_next_index_block s k m (by omega)]
    have h1 : k + 1 + n = k + (n + 1) := by omega
    have h2 : m - 1 - n = m - (n + 1) := by omega
    rw [ih (k + 1) (m - 1) (by omega), h1, h2]

/-- Splitting a trace: validity of a composite trace gives validity of its
suffix from the intermediate registry. -/
theorem traceOk_append (l1 : List SlotOp) :
    ∀ (sh : SpriteHolder) (l2 : List SlotOp),
      traceOk sh (l1 ++ l2) → traceOk (runOps sh l1) l2 := by
  induction l1 with
  | nil => intro sh l2 h; exact h
  | cons op t ih =>
    intro sh l2 h
    cases op with
    | alloc => exact ih _ _ h.2
    | release i => exact ih _ _ h

/-- The head of a nonempty all-true replicate. -/
theorem get?_replicate_true_zero (n : ℕ) (hn : 0 < n) :
    (List.replicate n true).get? 0 = some true := by
  obtain ⟨n', rfl⟩ : ∃ n', n = n' + 1 := ⟨n - 1, by omega⟩
  rw [List.replicate_succ, List.get?_cons_zero]

/-- C9. The axis-aligned rectangle collision test of check_collision,
inclusive on all boundaries, is symmetric in its two rectangles. -/
theorem c9_collides_symm (pA sA pB sB : ℚ × ℚ) :
    collides pA sA pB sB ↔ collides pB sB pA sA := by
  unfold collides
  constructor
  · rintro ⟨h1, h2, h3, h4⟩
    exact ⟨h2, h1, h4, h3⟩
  · rintro ⟨h1, h2, h3, h4⟩
    exact ⟨h2, h1, h4, h3⟩

/-- C6. get_next_index returns the smallest inactive index, marks exactly
that slot active and leaves the records untouched; on a fully active
registry it returns index 0 and changes nothing. -/
theorem c6_get_next_index_spec (sh : SpriteHolder) :
    (∀ i : ℕ, sh.active.get? i = some false →
        (∀ j, j < i → sh.active.get? j = some true) →
        sh.get_next_index = (i, { sh with active := sh.active.set i true })) ∧
    ((∀ b ∈ sh.active, b = true) → sh.get_next_index = (0, sh)) := by
  constructor
  · intro i h hlt
    exact get_next_index_eq_some sh i
      (by simpa using findFree_first sh.active 0 i h hlt)
  · intro h
    exact get_next_index_eq_none sh (findFree_all_true sh.active 0 h)

/-- A three-slot registry whose slot 0 is busy, for instantiating C6. -/
def shWitA : SpriteHolder :=
  ⟨[GPUSprite.zeroed, GPUSprite.zeroed, GPUSprite.zeroed], [true, false, false]⟩

/-- A fully active one-slot registry, for instantiating C6. -/
def shWitB : SpriteHolder := ⟨[GPUSprite.zeroed], [true]⟩

/-- Witness for C6 at two concrete registries: a free slot is found at index
1, and exhaustion returns slot 0 unchanged. -/
theorem c6_witness :
    shWitA.get_next_index = (1, { shWitA with active := shWitA.active.set 1 true }) ∧
    shWitB.get_next_index = (0, shWitB) :=
  ⟨(c6_get_next_index_spec shWitA).1 1 (by decide) (by decide),
   (c6_get_next_index_spec shWitB).2 (by decide)⟩

/-- Counterexample for C5 as stated: against the 1000-slot registry the game
builds, the sequence of 1001 straight allocations is not ownership-safe --
the 1001st allocation hits exhaustion and returns slot 0, which is still
held by the very first allocation. -/
theorem c5_counterexample :
    ¬ traceOk initialHolder (List.replicate 1001 SlotOp.alloc) := by
  intro h
  have hsplit : List.replicate 1001 SlotOp.alloc
      = List.replicate 1000 SlotOp.alloc ++ [SlotOp.alloc] := List.replicate_succ' ..
  rw [hsplit] at h
  have h1 := traceOk_append (List.replicate 1000 SlotOp.alloc) initialHolder [SlotOp.alloc] h
  have hrun : runOps initialHolder (List.replicate 1000 SlotOp.alloc)
      = ⟨List.replicate 1000 GPUSprite.zeroed, List.replicate 1000 true⟩ := by
    have hr := runOps_allocs (List.replicate 1000 GPUSprite.zeroed) 1000 0 1000 le_rfl
    rw [List.replicate_zero, List.nil_append] at hr
    norm_num at hr
    exact hr
  rw [hrun] at h1
  obtain ⟨hbad, -⟩ := h1
  rw [get_next_index_eq_none _
    (findFree_all_true _ 0 (fun b hb => List.eq_of_mem_replicate hb))] at hbad
  rw [get?_replicate_true_zero 1000 (by omega)] at hbad
  exact Bool.noConfusion (Option.some.inj hbad)

/-- C5, amended: along any call sequence in which no allocation hits an
exhausted registry, every allocation returns a slot that is inactive at the
moment of the call, so no two concurrently active owners ever share an
index. -/
theorem c5_no_exhaustion_unique (ops : List SlotOp) :
    ∀ sh : SpriteHolder, noExhaust sh ops → traceOk sh ops := by
  induction ops with
  | nil => intro sh _; trivial
  | cons op t ih =>
    cases op with
    | alloc =>
      intro sh h
      obtain ⟨hfree, hrest⟩ := h
      obtain ⟨i, hi⟩ := findFree_mem_false sh.active 0 hfree
      obtain ⟨-, hget⟩ := findFree_some_sound sh.active 0 i hi
      refine ⟨?_, ih _ hrest⟩
      rw [get_next_index_eq_some sh i hi]
      simpa using hget
    | release i =>
      intro sh h
      exact ih _ h

/-- A two-slot free registry for instantiating C5. -/
def wHolder : SpriteHolder := ⟨[GPUSprite.zeroed, GPUSprite.zeroed], [false, false]⟩

/-- Witness for the amended C5 on a concrete non-exhausting sequence. -/
theorem c5_witness :
    traceOk wHolder [SlotOp.alloc, SlotOp.release 0, SlotOp.alloc] :=
  c5_no_exhaustion_unique _ _ ⟨by decide, by decide, trivial⟩

/-- The legal-transition table of the claim, as (current, requested)
pairs. -/
def legalTransition : List (ℕ × ℕ) :=
  [(0, 1), (0, 5), (1, 2), (1, 3), (1, 4), (2, 1), (3, 1),
   (5, 6), (5, 0), (6, 7), (6, 3), (6, 4), (7, 6)]

/-- load_level_1 never touches the state tag. -/
theorem load_level_1_game_state (g : GameStateHolder) :
    (load_level_1 g).game_state = g.game_state := rfl

/-- load_level_6 never touches the state tag. -/
theorem load_level_6_game_state (g : GameStateHolder) :
    (load_level_6 g).game_state = g.game_state := rfl

/-- load_dead_level never touches the state tag. -/
theorem load_dead_level_game_state (g : GameStateHolder) :
    (load_dead_level g).game_state = g.game_state := rfl

/-- C4. transition_to_state moves the state tag to the requested state
exactly when the (current, requested) pair is in the legal table, and leaves
the state unchanged otherwise. -/
theorem c4_transition_table (g : GameStateHolder) (hg : g.game_state < 8) :
    ∀ r : ℕ, r < 8 →
      (transition_to_state r g).game_state =
        (if (g.game_state, r) ∈ legalTransition then r else g.game_state) := by
  obtain ⟨pl, en, sh, projs, phb, gs, bg, t1, ds, cs, ws, t2, fl, rc⟩ := g
  simp only at hg
  intro r hr
  interval_cases gs <;> interval_cases r <;> rfl

/-- Witness for C4: a Win request in the Title state is rejected. -/
theorem c4_witness :
    (transition_to_state 4 sampleG).game_state =
      (if (sampleG.game_state, 4) ∈ legalTransition then 4 else sampleG.game_state) :=
  c4_transition_table sampleG (by decide) 4 (by decide)

/-- The Gameplay-state holder obtained after the 1-health enemy took the
killing hit, carrying the transition flag that Enemy::damage wrote. -/
def gC1 : GameStateHolder :=
  { sampleG with game_state := 1,
                 trans_flag := ((freshEnemy 1 2 1 3 4).damage 1 0).2 }

/-- Counterexample for C1 as stated: killing a 1-health enemy sets the
pending transition flag to 4 (the Win screen), not to 3 (StageCleared), and
the following transition evaluation from Gameplay lands on state 4, not on
StageCleared. -/
theorem c1_counterexample :
    ((freshEnemy 1 2 1 3 4).damage 1 0).2 ≠ 3 ∧
    (trans_phase gC1).game_state ≠ 3 := by
  have hd : ((freshEnemy 1 2 1 3 4).damage 1 0).2 = 4 := by
    unfold Enemy.damage freshEnemy
    norm_num
  constructor
  · rw [hd]
    omega
  · have hg : gC1 = { sampleG with game_state := 1, trans_flag := 4 } := by
      unfold gC1
      simp only [hd]
    rw [hg]
    decide

/-- C1, amended: when Enemy::damage drops the enemy health bar from a
positive value to at most 0 it sets the pending transition flag to 4 (the
Win state), and the next transition evaluation during Gameplay moves the
game state to 4. -/
theorem c1_enemy_death_sets_win (e : Enemy) (amount : ℚ) (fl : ℕ)
    (hpos : 0 < e.health_bar.currval) (hz : e.health_bar.currval - amount ≤ 0) :
    (e.damage amount fl).2 = 4 ∧
    ∀ g : GameStateHolder, g.game_state = 1 → g.trans_flag = 4 →
      (trans_phase g).game_state = 4 := by
  constructor
  · unfold Enemy.damage
    simp only []
    rw [if_pos (by simpa using hz)]
  · intro g hgs hfl
    unfold trans_phase
    rw [hfl]
    rw [if_pos (by omega)]
    unfold transition_to_state
    rw [hgs]
    rfl

/-- Witness for the amended C1 at a concrete 1-health enemy. -/
theorem c1_witness :
    ((freshEnemy 1 2 1 3 4).damage 1 0).2 = 4 ∧
    ∀ g : GameStateHolder, g.game_state = 1 → g.trans_flag = 4 →
      (trans_phase g).game_state = 4 :=
  c1_enemy_death_sets_win (freshEnemy 1 2 1 3 4) 1 0
    (by norm_num [freshEnemy]) (by norm_num [freshEnemy])

/-- Counterexample for C2 as stated: running one Level6AI step at counter
650 (both under the reading that the counter reads 650 during the phase
check and that it enters at 650) spawns no projectile at all, because 650 is
not a multiple of 30. -/
theorem c2_counterexample :
    (aiLoop oracle0 (.level6 649 40) 0 [] sampleSpriteHolder
        (freshEnemy 1 2 1800 3 4)).2.2.1 = [] ∧
    (aiLoop oracle0 (.level6 650 40) 0 [] sampleSpriteHolder
        (freshEnemy 1 2 1800 3 4)).2.2.1 = [] := by
  decide

/-- C2, amended: at a phase-2 counter value that is a multiple of 30 (such
as 660), one Level6AI step spawns exactly 3 projectiles whose velocity
angles are the random base drawn from the cone between 9 pi over 8 and 11 pi
over 8, base plus pi over 4, and base plus pi over 2. -/
theorem c2_phase2_fan (O : Oracle) (cd mx ctr : ℕ) (projs : List Projectile)
    (sh : SpriteHolder) (e : Enemy)
    (h6 : 600 < cd + 1) (h12 : cd + 1 ≤ 1200) (h30 : (cd + 1) % 30 = 0)
    (hlo : 9 * O.pi / 8 ≤ O.rand ctr) (hhi : O.rand ctr ≤ 11 * O.pi / 8) :
    ∃ q1 q2 q3 : Projectile,
      (aiLoop O (.level6 cd mx) ctr projs sh e).2.2.1 = projs ++ [q1, q2, q3] ∧
      q1.velocity = (O.cos (O.rand ctr) * 6, O.sin (O.rand ctr) * 6) ∧
      q2.velocity = (O.cos (O.rand ctr + O.pi / 4) * 6,
        O.sin (O.rand ctr + O.pi / 4) * 6) ∧
      q3.velocity = (O.cos (O.rand ctr + O.pi / 2) * 6,
        O.sin (O.rand ctr + O.pi / 2) * 6) := by
  have e2 : O.rand ctr + 2 * O.pi / 8 = O.rand ctr + O.pi / 4 := by ring
  have e3 : O.rand ctr + 2 * O.pi / 8 + 2 * O.pi / 8 = O.rand ctr + O.pi / 2 := by ring
  simp only [aiLoop]
  rw [if_neg (by omega), if_pos (by omega), if_pos h30]
  unfold Enemy.spawn_new_projectile make_projectile
  simp only [List.append_assoc, List.cons_append, List.nil_append]
  exact ⟨_, _, _, rfl, rfl, by rw [e2], by rw [e3]⟩

/-- Witness for the amended C2: oracle with pi modelled as 8 thirds, base
draw 3 (inside the cone), counter entering at 659. -/
theorem c2_witness :
    ∃ q1 q2 q3 : Projectile,
      (aiLoop oracleW (.level6 659 40) 0 [] sampleSpriteHolder
          (freshEnemy 1 2 1800 3 4)).2.2.1 = [] ++ [q1, q2, q3] ∧
      q1.velocity = (oracleW.cos (oracleW.rand 0) * 6, oracleW.sin (oracleW.rand 0) * 6) ∧
      q2.velocity = (oracleW.cos (oracleW.rand 0 + oracleW.pi / 4) * 6,
        oracleW.sin (oracleW.rand 0 + oracleW.pi / 4) * 6) ∧
      q3.velocity = (oracleW.cos (oracleW.rand 0 + oracleW.pi / 2) * 6,
        oracleW.sin (oracleW.rand 0 + oracleW.pi / 2) * 6) :=
  c2_phase2_fan oracleW 659 40 0 [] sampleSpriteHolder (freshEnemy 1 2 1800 3 4)
    (by omega) (by omega) (by norm_num) (by norm_num [oracleW]) (by norm_num [oracleW])

/-- Counterexample for C3 as stated: a player-spawned projectile that
crosses the bottom edge during Gameplay is killed and nevertheless damages
the player (the health bar drops from 10 to 9), although the claim allows a
damage event only for enemy-spawned projectiles. -/
theorem c3_counterexample :
    cProj.player_spawned = true ∧
    cProj.pos.2 + cProj.velocity.2 < 0 ∧
    (cProj.move_proj (freshPlayerHb 10 0 0) 0 1).1.is_dead = true ∧
    (cProj.move_proj (freshPlayerHb 10 0 0) 0 1).2.1.currval ≠
      (freshPlayerHb 10 0 0).currval := by
  refine ⟨rfl, by norm_num [cProj], ?_, ?_⟩
  · unfold Projectile.move_proj cProj Projectile.kill Player.damage freshPlayerHb
    norm_num
  · unfold Projectile.move_proj cProj Projectile.kill Player.damage freshPlayerHb
    norm_num

/-- C3, amended: whenever the integrated y-position of a projectile drops
below 0, move_proj marks it dead; during state 1 it applies 1.0 damage to
the player regardless of the origin flag, and in every other state it leaves
the health bar and the flag untouched. -/
theorem c3_move_proj_bottom (p : Projectile) (hb : HealthBar) (fl gs : ℕ)
    (hy : p.pos.2 + p.velocity.2 < 0) :
    (p.move_proj hb fl gs).1.is_dead = true ∧
    (gs = 1 → (p.move_proj hb fl gs).2.1.currval = hb.currval - 1) ∧
    (gs ≠ 1 → (p.move_proj hb fl gs).2.1 = hb ∧ (p.move_proj hb fl gs).2.2 = fl) := by
  unfold Projectile.move_proj
  simp only []
  rw [if_pos (by simpa using hy)]
  by_cases hgs : gs = 1
  · subst hgs
    rw [if_pos rfl]
    refine ⟨rfl, fun _ => ?_, fun h => absurd rfl h⟩
    unfold Player.damage
    simp only []
    split <;> rfl
  · rw [if_neg hgs]
    exact ⟨rfl, fun h => absurd h hgs, fun _ => ⟨rfl, rfl⟩⟩

/-- Witness for the amended C3 at the concrete falling projectile. -/
theorem c3_witness :
    (cProj.move_proj (freshPlayerHb 10 0 0) 0 1).1.is_dead = true ∧
    (1 = 1 → (cProj.move_proj (freshPlayerHb 10 0 0) 0 1).2.1.currval =
      (freshPlayerHb 10 0 0).currval - 1) ∧
    (1 ≠ 1 → (cProj.move_proj (freshPlayerHb 10 0 0) 0 1).2.1 = freshPlayerHb 10 0 0 ∧
      (cProj.move_proj (freshPlayerHb 10 0 0) 0 1).2.2 = 0) :=
  c3_move_proj_bottom cProj (freshPlayerHb 10 0 0) 0 1 (by norm_num [cProj])

/-- C7. A shoot action with at least 3 charges appends exactly one
player-spawned projectile and resets the charges to 0; with fewer than 3
charges it changes nothing; and check_collision increments the charge
counter exactly when an enemy-spawned projectile overlaps the player during
state 1, and never otherwise. -/
theorem c7_charges_spec :
    (∀ (pl : Player) (sp : ℚ) (projs : List Projectile) (sh : SpriteHolder),
      (3 ≤ pl.charges →
        (pl.spawn_new_projectile sp projs sh).1 = { pl with charges := 0 } ∧
        ∃ q : Projectile, q.player_spawned = true ∧
          (pl.spawn_new_projectile sp projs sh).2.1 = projs ++ [q]) ∧
      (pl.charges < 3 → pl.spawn_new_projectile sp projs sh = (pl, projs, sh))) ∧
    (∀ (p : Projectile) (player : Player) (enemy : Enemy) (fl : ℕ)
        (hb : HealthBar) (gs : ℕ),
      (p.check_collision player enemy fl hb gs).2.1.charges =
        (if p.player_spawned = false ∧
            collides p.pos p.size player.pos player.size ∧ gs = 1
         then player.charges + 1 else player.charges)) := by
  constructor
  · intro pl sp projs sh
    constructor
    · intro h3
      unfold Player.spawn_new_projectile
      rw [if_pos h3]
      exact ⟨rfl, _, rfl, rfl⟩
    · intro hlt
      unfold Player.spawn_new_projectile
      rw [if_neg (by omega)]
  · intro p player enemy fl hb gs
    unfold Projectile.check_collision
    by_cases hps : p.player_spawned = true
    · rw [if_pos hps, if_neg (show ¬(p.player_spawned = false ∧
        collides p.pos p.size player.pos player.size ∧ gs = 1) by simp [hps])]
      split <;> rfl
    · have hps' : p.player_spawned = false := by simpa using hps
      rw [if_neg hps]
      by_cases hcol : collides p.pos p.size player.pos player.size
      · rw [if_pos hcol]
        by_cases hgs : gs = 1
        · subst hgs
          rw [if_pos (show (1 : ℕ) = 1 from rfl), if_pos (show p.player_spawned = false ∧
            collides p.pos p.size player.pos player.size ∧ 1 = 1 from ⟨hps', hcol, rfl⟩)]
        · rw [if_neg hgs, if_neg (show ¬(p.player_spawned = false ∧
            collides p.pos p.size player.pos player.size ∧ gs = 1) by simp [hgs])]
          split <;> rfl
      · rw [if_neg hcol, if_neg (show ¬(p.player_spawned = false ∧
          collides p.pos p.size player.pos player.size ∧ gs = 1) by simp [hcol])]

/-- Witness for C7: shooting with zero charges changes nothing. -/
theorem c7_witness :
    (freshPlayer 0).spawn_new_projectile 10 [] sampleSpriteHolder =
      (freshPlayer 0, [], sampleSpriteHolder) :=
  (c7_charges_spec.1 (freshPlayer 0) 10 [] sampleSpriteHolder).2 (by decide)

/-- Each release step of the cleanup fold keeps the active-flag list length
and makes the dead projectiles' slots inactive. -/
theorem cleanup_fold_release (l : List Projectile) :
    ∀ (sh : SpriteHolder) (i : ℕ), i < sh.active.length →
      ((∃ p ∈ l, p.is_dead = true ∧ p.sprite_index = i) ∨
        sh.active.get? i = some false) →
      (l.foldl (fun acc p => if p.is_dead then p.clean_dead acc else acc)
        sh).active.get? i = some false := by
  induction l with
  | nil =>
    intro sh i _ h
    rcases h with ⟨p, hp, -⟩ | h
    · simp at hp
    · exact h
  | cons p t ih =>
    intro sh i hlen h
    simp only [List.foldl_cons]
    have hlen' : (if p.is_dead then p.clean_dead sh else sh).active.length
        = sh.active.length := by
      split <;> simp [Projectile.clean_dead, SpriteHolder.remove_sprite]
    rcases h with ⟨q, hq, hqd, hqi⟩ | hfalse
    · rcases List.mem_cons.mp hq with rfl | hqt
      · subst hqi
        refine ih _ q.sprite_index (by rw [hlen']; exact hlen) (Or.inr ?_)
        rw [if_pos hqd]
        exact List.get?_set_eq_of_lt _ hlen
      · exact ih _ i (by rw [hlen']; exact hlen) (Or.inl ⟨q, hqt, hqd, hqi⟩)
    · refine ih _ i (by rw [hlen']; exact hlen) (Or.inr ?_)
      by_cases hpd : p.is_dead = true
      · rw [if_pos hpd]
        by_cases hip : p.sprite_index = i
        · subst hip
          exact List.get?_set_eq_of_lt _ hlen
        · show (sh.active.set p.sprite_index false).get? i = some false
          rw [List.get?_set_ne _ _ hip]
          exact hfalse
      · rw [if_neg hpd]
        exact hfalse

/-- C8. After the end-of-frame cleanup pass, the projectile collection holds
no dead projectile, and the sprite slot of every projectile that was dead
going into the pass is inactive, so a dead projectile never survives into
the next frame. -/
theorem c8_cleanup_spec (g : GameStateHolder) :
    (∀ p ∈ (cleanup_phase g).projectiles, p.is_dead = false) ∧
    (∀ p ∈ g.projectiles, p.is_dead = true →
      p.sprite_index < g.sprite_holder.active.length →
      (cleanup_phase g).sprite_holder.active.get? p.sprite_index = some false) := by
  constructor
  · intro p hp
    unfold cleanup_phase at hp
    simp only [List.mem_filter, Bool.not_eq_true'] at hp
    exact hp.2
  · intro p hp hd hlen
    unfold cleanup_phase
    exact cleanup_fold_release g.projectiles g.sprite_holder p.sprite_index hlen
      (Or.inl ⟨p, hp, hd, rfl⟩)

/-- A dead enemy projectile bound to slot 0, for instantiating C8. -/
def wDeadProj : Projectile :=
  { pos := (0, 0), size := (64, 64), speed := 10, velocity := (0, 0),
    sprite_index := 0, sprite := enemyProjSprite, is_dead := true,
    player_spawned := false }

/-- A whole-game state carrying one dead projectile, for instantiating
C8. -/
def gC8 : GameStateHolder := { sampleG with projectiles := [wDeadProj] }

/-- Witness for C8 at the concrete one-dead-projectile state. -/
theorem c8_witness :
    (cleanup_phase gC8).sprite_holder.active.get? wDeadProj.sprite_index
      = some false :=
  (c8_cleanup_spec gC8).2 wDeadProj (List.mem_singleton.mpr rfl) rfl (by decide)

/-- Movement only changes velocity, position x and facing. -/
theorem moved_player_fields (inp : Input) (pl : Player) :
    (moved_player inp pl).charges = pl.charges ∧
    (moved_player inp pl).pos = pl.pos ∧
    (moved_player inp pl).size = pl.size := by
  unfold moved_player Player.add_speed
  dsimp only
  split_ifs <;> exact ⟨rfl, rfl, rfl⟩

/-- player_loop only changes position x, facing and the sprite. -/
theorem player_loop_fields (pl : Player) (sh : SpriteHolder) :
    (pl.player_loop sh).1.charges = pl.charges ∧
    (pl.player_loop sh).1.pos.2 = pl.pos.2 ∧
    (pl.player_loop sh).1.size = pl.size := by
  unfold Player.player_loop set_sprite
  dsimp only
  split_ifs <;> exact ⟨rfl, rfl, rfl⟩

/-- Shooting with no charge accumulated is a no-op. -/
theorem spawn_new_projectile_zero (pl : Player) (sp : ℚ) (projs : List Projectile)
    (sh : SpriteHolder) (h : pl.charges = 0) :
    pl.spawn_new_projectile sp projs sh = (pl, projs, sh) := by
  unfold Player.spawn_new_projectile
  rw [if_neg (by omega)]

/-- The whole shoot phase is a no-op for a player with no charges. -/
theorem shoot_phase_zero (inp : Input) (pl : Player) (projs : List Projectile)
    (sh : SpriteHolder) (h : pl.charges = 0) :
    shoot_phase inp pl projs sh = (pl, projs, sh) := by
  unfold shoot_phase
  split
  · exact spawn_new_projectile_zero pl 10 projs sh h
  · rfl

/-- The health bar loop clamps the current value at 0 and touches nothing
else of the value. -/
theorem health_bar_loop_currval (hb : HealthBar) (sh : SpriteHolder) :
    (hb.health_bar_loop sh).1.currval =
      (if hb.currval < 0 then 0 else hb.currval) := by
  unfold HealthBar.health_bar_loop
  dsimp only
  split_ifs <;> rfl

/-- Field accounting for the opening phase of a frame when the player has no
charges: the enemy, the projectiles, the state tag, the flag and the rng
position are untouched, the charges stay 0, the player keeps its y-position
and size, and the player health bar is clamped at 0. -/
theorem input_phase_fields (inp : Input) (g : GameStateHolder)
    (hch : g.player.charges = 0) :
    (input_phase inp g).enemy = g.enemy ∧
    (input_phase inp g).projectiles = g.projectiles ∧
    (input_phase inp g).game_state = g.game_state ∧
    (input_phase inp g).trans_flag = g.trans_flag ∧
    (input_phase inp g).rng_ctr = g.rng_ctr ∧
    (input_phase inp g).player.charges = 0 ∧
    (input_phase inp g).player.pos.2 = g.player.pos.2 ∧
    (input_phase inp g).player.size = g.player.size ∧
    (input_phase inp g).player_health_bar.currval =
      (if g.player_health_bar.currval < 0 then 0 else g.player_health_bar.currval) := by
  obtain ⟨hmc, hmp, hms⟩ := moved_player_fields inp g.player
  have hsz : shoot_phase inp (moved_player inp g.player) g.projectiles
      (g.sprite_holder.set_sprite g.background.sprite_index g.background.sprite)
      = (moved_player inp g.player, g.projectiles,
         g.sprite_holder.set_sprite g.background.sprite_index g.background.sprite) :=
    shoot_phase_zero _ _ _ _ (by rw [hmc]; exact hch)
  obtain ⟨hlc, hlp, hls⟩ := player_loop_fields (moved_player inp g.player)
      (g.sprite_holder.set_sprite g.background.sprite_index g.background.sprite)
  simp only [input_phase, hsz]
  refine ⟨trivial, trivial, trivial, trivial, trivial, ?_, ?_, ?_, ?_⟩
  · rw [hlc, hmc]
    exact hch
  · rw [hlp, hmp]
  · rw [hls, hms]
  · exact health_bar_loop_currval g.player_health_bar _

/-- Field accounting for the per-frame boss drain in state 6. -/
theorem damage_phase_state6 (g : GameStateHolder) (hgs : g.game_state = 6) :
    (damage_phase g).player = g.player ∧
    (damage_phase g).projectiles = g.projectiles ∧
    (damage_phase g).game_state = 6 ∧
    (damage_phase g).player_health_bar = g.player_health_bar ∧
    (damage_phase g).rng_ctr = g.rng_ctr ∧
    (damage_phase g).enemy.enemy.health_bar.currval
      = g.enemy.enemy.health_bar.currval - 1 ∧
    (damage_phase g).trans_flag =
      (if g.enemy.enemy.health_bar.currval - 1 ≤ 0 then 4 else g.trans_flag) := by
  unfold damage_phase
  rw [if_pos hgs]
  unfold Enemy.damage
  dsimp only
  split_ifs with h
  · exact ⟨rfl, rfl, hgs, rfl, rfl, rfl, rfl⟩
  · exact ⟨rfl, rfl, hgs, rfl, rfl, rfl, rfl⟩

/-- Every enemy spawn appends one enemy-origin projectile with y-position
650, size 64 by 64 and the requested velocity. -/
theorem spawn_new_projectile_shape (O : Oracle) (e : Enemy) (ctr : ℕ)
    (projs : List Projectile) (sh : SpriteHolder) (v : ℚ × ℚ) :
    ∃ q : Projectile,
      (Enemy.spawn_new_projectile O e ctr projs sh v).2.1 = projs ++ [q] ∧
      q.player_spawned = false ∧ q.pos.2 = 650 ∧ q.size = (64, 64) ∧
      q.velocity = v := by
  unfold Enemy.spawn_new_projectile make_projectile
  exact ⟨_, rfl, rfl, rfl, rfl, rfl⟩

/-- One AI step only appends projectiles, and every appended projectile is
enemy-origin with y-position 650, size 64 by 64 and a velocity of the form
(cos a times 6, sin a times 6). -/
theorem aiLoop_spawns (O : Oracle) (ai : AIKind) (ctr : ℕ)
    (projs : List Projectile) (sh : SpriteHolder) (e : Enemy) :
    ∃ L, (aiLoop O ai ctr projs sh e).2.2.1 = projs ++ L ∧
      ∀ q ∈ L, q.player_spawned = false ∧ q.pos.2 = 650 ∧ q.size = (64, 64) ∧
        ∃ a, q.velocity = (O.cos a * 6, O.sin a * 6) := by
  cases ai with
  | level0 => exact ⟨[], by simp [aiLoop], by simp⟩
  | level1 cd mx =>
    simp only [aiLoop]
    split_ifs with h
    · exact ⟨[], by simp, by simp⟩
    · obtain ⟨q, hq, h1, h2, h3, h4⟩ :=
        spawn_new_projectile_shape O e (ctr + 1) projs sh
          (O.cos (O.rand ctr) * 6, O.sin (O.rand ctr) * 6)
      refine ⟨[q], by simpa using hq, ?_⟩
      intro x hx
      rw [List.mem_singleton] at hx
      subst hx
      exact ⟨h1, h2, h3, _, h4⟩
  | level6 cd mx =>
    simp only [aiLoop]
    split_ifs with h1 h2 h3 h4 h5 h6
    · obtain ⟨q, hq, ha, hb, hc, hd⟩ :=
        spawn_new_projectile_shape O e ctr projs sh
          (O.cos (11 * O.pi / 8 + O.sin ((cd + 1 : ℕ) / 55 : ℚ) * (3 * O.pi / 8)) * 6,
           O.sin (11 * O.pi / 8 + O.sin ((cd + 1 : ℕ) / 55 : ℚ) * (3 * O.pi / 8)) * 6)
      refine ⟨[q], by simpa using hq, ?_⟩
      intro x hx
      rw [List.mem_singleton] at hx
      subst hx
      exact ⟨ha, hb, hc, _, hd⟩
    · exact ⟨[], by simp, by simp⟩
    · obtain ⟨q1, hq1, a1, b1, c1, d1⟩ :=
        spawn_new_projectile_shape O e (ctr + 1) projs sh
          (O.cos (O.rand ctr) * 6, O.sin (O.rand ctr) * 6)
      rw [hq1]
      obtain ⟨q2, hq2, a2, b2, c2, d2⟩ :=
        spawn_new_projectile_shape O e
          (Enemy.spawn_new_projectile O e (ctr + 1) projs sh
            (O.cos (O.rand ctr) * 6, O.sin (O.rand ctr) * 6)).1
          (projs ++ [q1])
          (Enemy.spawn_new_projectile O e (ctr + 1) projs sh
            (O.cos (O.rand ctr) * 6, O.sin (O.rand ctr) * 6)).2.2
          (O.cos (O.rand ctr + 2 * O.pi / 8) * 6, O.sin (O.rand ctr + 2 * O.pi / 8) * 6)
      rw [hq2]
      obtain ⟨q3, hq3, a3, b3, c3, d3⟩ :=
        spawn_new_projectile_shape O e _ ((projs ++ [q1]) ++ [q2]) _
          (O.cos (O.rand ctr + 2 * O.pi / 8 + 2 * O.pi / 8) * 6,
           O.sin (O.rand ctr + 2 * O.pi / 8 + 2 * O.pi / 8) * 6)
      rw [hq3]
      refine ⟨[q1, q2, q3], by simp, ?_⟩
      intro x hx
      rcases List.mem_cons.mp hx with rfl | hx
      · exact ⟨a1, b1, c1, _, d1⟩
      rcases List.mem_cons.mp hx with rfl | hx
      · exact ⟨a2, b2, c2, _, d2⟩
      rw [List.mem_singleton] at hx
      subst hx
      exact ⟨a3, b3, c3, _, d3⟩
    · exact ⟨[], by simp, by simp⟩
    · obtain ⟨q, hq, ha, hb, hc, hd⟩ :=
        spawn_new_projectile_shape O e ctr projs sh
          (O.cos (11 * O.pi / 8 + O.sin ((cd + 1 : ℕ) / 7 : ℚ) * (3 * O.pi / 8)) * 6,
           O.sin (11 * O.pi / 8 + O.sin ((cd + 1 : ℕ) / 7 : ℚ) * (3 * O.pi / 8)) * 6)
      refine ⟨[q], by simpa using hq, ?_⟩
      intro x hx
      rw [List.mem_singleton] at hx
      subst hx
      exact ⟨ha, hb, hc, _, hd⟩
    · exact ⟨[], by simp, by simp⟩
    · exact ⟨[], by simp, by simp⟩

/-- Field accounting for the enemy loop phase: the player side and the
control fields are untouched, the enemy health is only clamped at 0, and the
projectile collection grows by the AI spawns. -/
theorem enemy_phase_fields (O : Oracle) (g : GameStateHolder) :
    (enemy_phase O g).player = g.player ∧
    (enemy_phase O g).player_health_bar = g.player_health_bar ∧
    (enemy_phase O g).game_state = g.game_state ∧
    (enemy_phase O g).trans_flag = g.trans_flag ∧
    (enemy_phase O g).enemy.enemy.health_bar.currval =
      (if g.enemy.enemy.health_bar.currval < 0 then 0
       else g.enemy.enemy.health_bar.currval) ∧
    ∃ L, (enemy_phase O g).projectiles = g.projectiles ++ L ∧
      ∀ q ∈ L, q.player_spawned = false ∧ q.pos.2 = 650 ∧ q.size = (64, 64) ∧
        ∃ a, q.velocity = (O.cos a * 6, O.sin a * 6) := by
  unfold enemy_phase Entity.enemy_loop
  dsimp only
  refine ⟨rfl, rfl, rfl, rfl, ?_, ?_⟩
  · exact health_bar_loop_currval _ _
  · obtain ⟨L, hL, hprops⟩ := aiLoop_spawns O g.enemy.ai g.rng_ctr g.projectiles
      g.sprite_holder _
    exact ⟨L, hL, hprops⟩

/-- Outside state 1, move_proj never touches the health bar or the flag, and
it only moves the projectile (possibly killing it). -/
theorem move_proj_fields_ne1 (p : Projectile) (hb : HealthBar) (fl : ℕ) (gs : ℕ)
    (hgs : gs ≠ 1) :
    (p.move_proj hb fl gs).2.1 = hb ∧
    (p.move_proj hb fl gs).2.2 = fl ∧
    (p.move_proj hb fl gs).1.player_spawned = p.player_spawned ∧
    (p.move_proj hb fl gs).1.velocity = p.velocity ∧
    (p.move_proj hb fl gs).1.size = p.size ∧
    (p.move_proj hb fl gs).1.pos = (p.pos.1 + p.velocity.1, p.pos.2 + p.velocity.2) := by
  unfold Projectile.move_proj Projectile.kill
  dsimp only
  by_cases h1 : p.pos.2 + p.velocity.2 < 0
  · simp [if_pos h1, if_neg hgs]
  · by_cases h3 : p.pos.2 + p.velocity.2 > 1000
    · simp [if_neg h1, if_pos h3]
    · simp [if_neg h1, if_neg h3]

/-- In state 6 an enemy-spawned projectile never changes the player or the
enemy in check_collision; the flag is either untouched or set to 7, and the
origin flag survives. -/
theorem Player_damage_6_flag (hb : HealthBar) (fl : ℕ) :
    (Player.damage 1 hb fl 6).2 = fl ∨ (Player.damage 1 hb fl 6).2 = 7 := by
  unfold Player.damage
  dsimp only
  split_ifs with a b c
  · exact absurd b (by omega)
  · exact Or.inr rfl
  · exact absurd rfl c
  · exact Or.inl rfl

theorem check_collision_enemy6 (p : Projectile) (pl : Player) (en : Enemy)
    (fl : ℕ) (hb : HealthBar) (hp : p.player_spawned = false) :
    (p.check_collision pl en fl hb 6).2.1 = pl ∧
    (p.check_collision pl en fl hb 6).2.2.1 = en ∧
    ((p.check_collision pl en fl hb 6).2.2.2.1 = fl ∨
     (p.check_collision pl en fl hb 6).2.2.2.1 = 7) ∧
    (p.check_collision pl en fl hb 6).1.player_spawned = false ∧
    (p.check_collision pl en fl hb 6).1.pos = p.pos ∧
    (p.check_collision pl en fl hb 6).1.velocity = p.velocity := by
  unfold Projectile.check_collision
  rw [if_neg (show ¬(p.player_spawned = true) by simp [hp])]
  by_cases hcol : collides p.pos p.size pl.pos pl.size
  · rw [if_pos hcol]
    rw [if_neg (show ¬((6 : ℕ) = 1) by omega)]
    rw [if_pos (show (6 : ℕ) = 6 from rfl)]
    exact ⟨rfl, rfl, Player_damage_6_flag hb fl, hp, rfl, rfl⟩
  · rw [if_neg hcol]
    exact ⟨rfl, rfl, Or.inl rfl, hp, rfl, rfl⟩

/-- The full characterization of one projectile step in state 6 over an
enemy-spawned projectile. -/
theorem proj_step_state6 (p : Projectile) (pl : Player) (en : Enemy)
    (hb : HealthBar) (fl : ℕ) (sh : SpriteHolder) (done : List Projectile)
    (hp : p.player_spawned = false) :
    ∃ (p2 : Projectile) (hb2 : HealthBar) (fl2 : ℕ) (sh2 : SpriteHolder),
      proj_step 6 (pl, en, hb, fl, sh, done) p = (pl, en, hb2, fl2, sh2, done ++ [p2]) ∧
      p2.player_spawned = false ∧ (fl2 = fl ∨ fl2 = 7) := by
  obtain ⟨m1, m2, m3, -, -, -⟩ := move_proj_fields_ne1 p hb fl 6 (by omega)
  obtain ⟨c1, c2, c3, c4, -, -⟩ :=
    check_collision_enemy6 (p.move_proj hb fl 6).1 pl en (p.move_proj hb fl 6).2.2
      (p.move_proj hb fl 6).2.1 (by rw [m3]; exact hp)
  set cc := (p.move_proj hb fl 6).1.check_collision pl en (p.move_proj hb fl 6).2.2
      (p.move_proj hb fl 6).2.1 6 with hcc
  refine ⟨cc.1, cc.2.2.2.2, cc.2.2.2.1, sh.set_sprite cc.1.sprite_index cc.1.sprite,
    ?_, c4, ?_⟩
  · show (cc.2.1, cc.2.2.1, cc.2.2.2.2, cc.2.2.2.1,
        sh.set_sprite cc.1.sprite_index cc.1.sprite, done ++ [cc.1])
      = (pl, en, cc.2.2.2.2, cc.2.2.2.1,
        sh.set_sprite cc.1.sprite_index cc.1.sprite, done ++ [cc.1])
    rw [c1, c2]
  · rw [m2] at c3
    exact c3

/-- Folding the state-6 projectile step over enemy-spawned projectiles keeps
the player and the enemy, keeps the flag or raises it to 7, and produces only
enemy-spawned projectiles. -/
theorem proj_fold_state6 (l : List Projectile) :
    ∀ (pl : Player) (en : Enemy) (hb : HealthBar) (fl : ℕ) (sh : SpriteHolder)
      (done : List Projectile),
      (∀ p ∈ l, p.player_spawned = false) →
      (∀ p ∈ done, p.player_spawned = false) →
      (l.foldl (proj_step 6) (pl, en, hb, fl, sh, done)).1 = pl ∧
      (l.foldl (proj_step 6) (pl, en, hb, fl, sh, done)).2.1 = en ∧
      ((l.foldl (proj_step 6) (pl, en, hb, fl, sh, done)).2.2.2.1 = fl ∨
       (l.foldl (proj_step 6) (pl, en, hb, fl, sh, done)).2.2.2.1 = 7) ∧
      (∀ p ∈ (l.foldl (proj_step 6) (pl, en, hb, fl, sh, done)).2.2.2.2.2,
        p.player_spawned = false) := by
  induction l with
  | nil =>
    intro pl en hb fl sh done _ hdone
    exact ⟨rfl, rfl, Or.inl rfl, hdone⟩
  | cons p t ih =>
    intro pl en hb fl sh done hl hdone
    simp only [List.foldl_cons]
    have hp : p.player_spawned = false := hl p (List.mem_cons_self p t)
    obtain ⟨p2, hb2, fl2, sh2, hstep, hp2, hfl2⟩ :=
      proj_step_state6 p pl en hb fl sh done hp
    rw [hstep]
    obtain ⟨h1, h2, h3, h4⟩ := ih pl en hb2 fl2 sh2 (done ++ [p2])
      (fun q hq => hl q (List.mem_cons_of_mem p hq))
      (by
        intro q hq
        rcases List.mem_append.mp hq with h | h
        · exact hdone q h
        · rw [List.mem_singleton] at h
          subst h
          exact hp2)
    refine ⟨h1, h2, ?_, h4⟩
    rcases h3 with h3 | h3
    · rcases hfl2 with hf | hf
      · exact Or.inl (by rw [h3, hf])
      · exact Or.inr (by rw [h3, hf])
    · exact Or.inr h3

/-- Field accounting for the projectile pass in state 6 over enemy-spawned
projectiles. -/
theorem proj_phase_state6 (g : GameStateHolder) (hgs : g.game_state = 6)
    (hl : ∀ p ∈ g.projectiles, p.player_spawned = false) :
    (proj_phase g).player = g.player ∧
    (proj_phase g).enemy = g.enemy ∧
    (proj_phase g).game_state = 6 ∧
    ((proj_phase g).trans_flag = g.trans_flag ∨ (proj_phase g).trans_flag = 7) ∧
    (∀ p ∈ (proj_phase g).projectiles, p.player_spawned = false) := by
  unfold proj_phase
  dsimp only
  rw [hgs]
  obtain ⟨h1, h2, h3, h4⟩ := proj_fold_state6 g.projectiles g.player g.enemy.enemy
    g.player_health_bar g.trans_flag g.sprite_holder [] hl (by simp)
  refine ⟨h1, ?_, rfl, h3, h4⟩
  rw [h2]

/-- Field accounting for the dead-projectile sweep. -/
theorem cleanup_phase_fields (g : GameStateHolder) :
    (cleanup_phase g).player = g.player ∧
    (cleanup_phase g).enemy = g.enemy ∧
    (cleanup_phase g).game_state = g.game_state ∧
    (cleanup_phase g).trans_flag = g.trans_flag ∧
    (cleanup_phase g).player_health_bar = g.player_health_bar ∧
    ∀ p ∈ (cleanup_phase g).projectiles, p ∈ g.projectiles := by
  unfold cleanup_phase
  exact ⟨rfl, rfl, rfl, rfl, rfl, fun p hp => (List.mem_filter.mp hp).1⟩

/-- The transition check is the identity when no transition is pending. -/
theorem trans_phase_zero (g : GameStateHolder) (h : g.trans_flag = 0) :
    trans_phase g = g := by
  unfold trans_phase
  rw [h]
  simp

/-- From state 6, an evaluated Win request lands on state 4. -/
theorem transition_6_to_4 (g : GameStateHolder) (hs : g.game_state = 6) :
    (transition_to_state 4 g).game_state = 4 := by
  unfold transition_to_state
  rw [hs]
  rfl

/-- From state 6, an evaluated boss-death request lands on state 7. -/
theorem transition_6_to_7 (g : GameStateHolder) (hs : g.game_state = 6) :
    (transition_to_state 7 g).game_state = 7 := by
  unfold transition_to_state
  rw [hs]
  rfl

/-- A pending flag of 4 or 7 always moves a state-6 holder away from
state 6. -/
theorem trans_phase_state6_flag (g : GameStateHolder) (hs : g.game_state = 6)
    (hf : g.trans_flag = 4 ∨ g.trans_flag = 7) :
    (trans_phase g).game_state ≠ 6 := by
  unfold trans_phase
  rcases hf with hf | hf
  · rw [hf, if_pos (by omega)]
    rw [transition_6_to_4 g hs]
    omega
  · rw [hf, if_pos (by omega)]
    rw [transition_6_to_7 g hs]
    omega

/-- Everything a boss frame does before the transition check, over a state-6
holder with no pending flag, no charges and only enemy-spawned projectiles:
the state survives, charges stay 0, projectiles stay enemy-spawned, the
enemy health drops by exactly 1 (clamped at 0), and the flag is either the
enemy-death value, 0, or a player-death 7. -/
theorem frame_pre_state6 (O : Oracle) (inp : Input) (g : GameStateHolder)
    (hgs : g.game_state = 6) (hfl : g.trans_flag = 0) (hch : g.player.charges = 0)
    (hproj : ∀ p ∈ g.projectiles, p.player_spawned = false) :
    (frame_pre O inp g).game_state = 6 ∧
    (frame_pre O inp g).player.charges = 0 ∧
    (∀ p ∈ (frame_pre O inp g).projectiles, p.player_spawned = false) ∧
    (frame_pre O inp g).enemy.enemy.health_bar.currval =
      (if g.enemy.enemy.health_bar.currval - 1 < 0 then 0
       else g.enemy.enemy.health_bar.currval - 1) ∧
    ((frame_pre O inp g).trans_flag =
      (if g.enemy.enemy.health_bar.currval - 1 ≤ 0 then 4 else 0) ∨
     (frame_pre O inp g).trans_flag = 7) := by
  obtain ⟨i_en, i_pr, i_gs, i_fl, i_rc, i_ch, -, -, -⟩ := input_phase_fields inp g hch
  have hgs1 : (input_phase inp g).game_state = 6 := by rw [i_gs, hgs]
  obtain ⟨d_pl, d_pr, d_gs, d_hb, d_rc, d_cv, d_fl⟩ :=
    damage_phase_state6 (input_phase inp g) hgs1
  rw [i_en] at d_cv
  rw [i_en, i_fl, hfl] at d_fl
  obtain ⟨e_pl, e_hb, e_gs, e_fl, e_cv, L, e_pr, e_props⟩ :=
    enemy_phase_fields O (damage_phase (input_phase inp g))
  rw [d_cv] at e_cv
  rw [d_fl] at e_fl
  have h3gs : (enemy_phase O (damage_phase (input_phase inp g))).game_state = 6 := by
    rw [e_gs, d_gs]
  have h3proj : ∀ p ∈ (enemy_phase O (damage_phase (input_phase inp g))).projectiles,
      p.player_spawned = false := by
    rw [e_pr]
    intro p hp
    rcases List.mem_append.mp hp with h | h
    · rw [d_pr, i_pr] at h
      exact hproj p h
    · exact (e_props p h).1
  obtain ⟨p_pl, p_en, p_gs, p_fl, p_proj⟩ :=
    proj_phase_state6 (enemy_phase O (damage_phase (input_phase inp g))) h3gs h3proj
  rw [e_fl] at p_fl
  obtain ⟨c_pl, c_en, c_gs, c_fl, c_hb, c_sub⟩ :=
    cleanup_phase_fields (proj_phase (enemy_phase O (damage_phase (input_phase inp g))))
  have hfp : frame_pre O inp g =
      cleanup_phase (proj_phase (enemy_phase O (damage_phase (input_phase inp g)))) := rfl
  rw [hfp]
  refine ⟨by rw [c_gs, p_gs], ?_, ?_, ?_, ?_⟩
  · rw [c_pl, p_pl, e_pl, d_pl, i_ch]
  · intro p hp
    exact p_proj p (c_sub p hp)
  · rw [c_en, p_en, e_cv]
  · rw [c_fl]
    exact p_fl

/-- One whole boss frame: if the state is still 6 afterwards, the invariant
survives and the enemy health dropped by exactly 1; and if the enemy health
was about to cross 0, the pre-transition snapshot shows health at most 0 with
a pending flag, and the frame leaves state 6. -/
theorem boss_frame (O : Oracle) (inp : Input) (g : GameStateHolder)
    (hgs : g.game_state = 6) (hfl : g.trans_flag = 0) (hch : g.player.charges = 0)
    (hproj : ∀ p ∈ g.projectiles, p.player_spawned = false) :
    ((main_event_loop O inp g).game_state = 6 →
      (main_event_loop O inp g).trans_flag = 0 ∧
      (main_event_loop O inp g).player.charges = 0 ∧
      (∀ p ∈ (main_event_loop O inp g).projectiles, p.player_spawned = false) ∧
      (main_event_loop O inp g).enemy.enemy.health_bar.currval
        = g.enemy.enemy.health_bar.currval - 1) ∧
    (g.enemy.enemy.health_bar.currval - 1 ≤ 0 →
      (frame_pre O inp g).enemy.enemy.health_bar.currval ≤ 0 ∧
      (frame_pre O inp g).trans_flag ≠ 0 ∧
      (main_event_loop O inp g).game_state ≠ 6) := by
  obtain ⟨f_gs, f_ch, f_proj, f_cv, f_fl⟩ := frame_pre_state6 O inp g hgs hfl hch hproj
  have hmain : main_event_loop O inp g = trans_phase (frame_pre O inp g) := rfl
  constructor
  · intro h6
    have hflag0 : (frame_pre O inp g).trans_flag = 0 := by
      by_contra hne
      have hf47 : (frame_pre O inp g).trans_flag = 4 ∨
          (frame_pre O inp g).trans_flag = 7 := by
        rcases f_fl with h | h
        · by_cases hd : g.enemy.enemy.health_bar.currval - 1 ≤ 0
          · rw [if_pos hd] at h
            exact Or.inl h
          · rw [if_neg hd] at h
            exact absurd h hne
        · exact Or.inr h
      exact trans_phase_state6_flag _ f_gs hf47 (by rw [← hmain]; exact h6)
    have hid : main_event_loop O inp g = frame_pre O inp g := by
      rw [hmain]
      exact trans_phase_zero _ hflag0
    have hpos : ¬(g.enemy.enemy.health_bar.currval - 1 ≤ 0) := by
      intro hle
      rcases f_fl with h | h
      · rw [if_pos hle] at h
        rw [hflag0] at h
        omega
      · rw [hflag0] at h
        omega
    rw [hid]
    refine ⟨hflag0, f_ch, f_proj, ?_⟩
    rw [f_cv, if_neg (by intro hlt; exact hpos (le_of_lt hlt))]
  · intro hdie
    have hf47 : (frame_pre O inp g).trans_flag = 4 ∨
        (frame_pre O inp g).trans_flag = 7 := by
      rcases f_fl with h | h
      · rw [if_pos hdie] at h
        exact Or.inl h
      · exact Or.inr h
    refine ⟨?_, ?_, ?_⟩
    · rw [f_cv]
      split_ifs with h
      · exact le_rfl
      · exact hdie
    · rcases hf47 with h | h
      · rw [h]
        omega
      · rw [h]
        omega
    · rw [hmain]
      exact trans_phase_state6_flag _ f_gs hf47

/-- The boss-frame invariant propagated along a run that stays in state 6:
charges stay 0, the flag stays cleared, every projectile stays enemy-origin
and the enemy health decreases by exactly 1 per frame. -/
theorem boss_run (O : Oracle) (I : ℕ → Input) (g : GameStateHolder)
    (hgs : g.game_state = 6) (hfl : g.trans_flag = 0) (hch : g.player.charges = 0)
    (hproj : ∀ p ∈ g.projectiles, p.player_spawned = false) :
    ∀ k : ℕ, (∀ j, j ≤ k → (iterFrame O I j g).game_state = 6) →
      (iterFrame O I k g).game_state = 6 ∧
      (iterFrame O I k g).trans_flag = 0 ∧
      (iterFrame O I k g).player.charges = 0 ∧
      (∀ p ∈ (iterFrame O I k g).projectiles, p.player_spawned = false) ∧
      (iterFrame O I k g).enemy.enemy.health_bar.currval
        = g.enemy.enemy.health_bar.currval - k := by
  intro k
  induction k with
  | zero =>
    intro _
    exact ⟨hgs, hfl, hch, hproj, by simp [iterFrame]⟩
  | succ k ih =>
    intro hstay
    obtain ⟨k_gs, k_fl, k_ch, k_proj, k_cv⟩ := ih (fun j hj => hstay j (by omega))
    have h6 : (main_event_loop O (I k) (iterFrame O I k g)).game_state = 6 := by
      have h := hstay (k + 1) le_rfl
      rw [show iterFrame O I (k + 1) g
        = main_event_loop O (I k) (iterFrame O I k g) from rfl] at h
      exact h
    obtain ⟨m_fl, m_ch, m_proj, m_cv⟩ :=
      (boss_frame O (I k) (iterFrame O I k g) k_gs k_fl k_ch k_proj).1 h6
    rw [k_cv] at m_cv
    have hit : iterFrame O I (k + 1) g
        = main_event_loop O (I k) (iterFrame O I k g) := rfl
    rw [hit]
    refine ⟨h6, m_fl, m_ch, m_proj, ?_⟩
    rw [m_cv]
    push_cast
    ring

/-- C10. In BossGameplay (state 6) the frame loop drains the boss by exactly
1.0 health per frame before the AI update, independent of player shots:
starting from a state-6 holder with the boss health pool of 1800, no pending
flag, no charges and only enemy-origin projectiles, as long as the game
stays in state 6 the health after k frames is exactly 1800 - k; during frame
1800 the health reaches 0, the pending transition flag is raised before the
transition check, and that check moves the game out of state 6. -/
theorem c10_boss_drain (O : Oracle) (I : ℕ → Input) (g : GameStateHolder)
    (hgs : g.game_state = 6) (hfl : g.trans_flag = 0) (hch : g.player.charges = 0)
    (hproj : ∀ p ∈ g.projectiles, p.player_spawned = false)
    (hhp : g.enemy.enemy.health_bar.currval = 1800)
    (hstay : ∀ k, k ≤ 1799 → (iterFrame O I k g).game_state = 6) :
    (∀ k, k ≤ 1799 →
      (iterFrame O I k g).enemy.enemy.health_bar.currval = 1800 - k) ∧
    (frame_pre O (I 1799) (iterFrame O I 1799 g)).enemy.enemy.health_bar.currval ≤ 0 ∧
    (frame_pre O (I 1799) (iterFrame O I 1799 g)).trans_flag ≠ 0 ∧
    (iterFrame O I 1800 g).game_state ≠ 6 := by
  have hrun := boss_run O I g hgs hfl hch hproj
  obtain ⟨s_gs, s_fl, s_ch, s_proj, s_cv⟩ :=
    hrun 1799 (fun j hj => hstay j (by omega))
  have hdie : (iterFrame O I 1799 g).enemy.enemy.health_bar.currval - 1 ≤ 0 := by
    rw [s_cv, hhp]
    norm_num
  have hstep :=
    (boss_frame O (I 1799) (iterFrame O I 1799 g) s_gs s_fl s_ch s_proj).2 hdie
  refine ⟨?_, hstep.1, hstep.2.1, ?_⟩
  · intro k hk
    have h := (hrun k (fun j hj => hstay j (by omega))).2.2.2.2
    rw [h, hhp]
  · have hit : iterFrame O I 1800 g
        = main_event_loop O (I 1799) (iterFrame O I 1799 g) := rfl
    rw [hit]
    exact hstep.2.2

/-- The all-keys-idle input stream. -/
def IW : ℕ → Input := fun _ => ⟨false, false, false, false, false⟩

/-- The boss level as load_level_6 installs it, with small slot indices: the
state-6 holder with the 1800-health boss, the 1-health player bar and the
multi-phase AI. -/
def gW : GameStateHolder :=
  { player := freshPlayer 0, enemy := ⟨freshEnemy 1 2 1800 3 4, .level6 0 40⟩,
    sprite_holder := sampleSpriteHolder, projectiles := [],
    player_health_bar := freshPlayerHb 1 5 6, game_state := 6,
    background := sampleScreen, title_screen := sampleScreen,
    death_screen := sampleScreen, cleared_screen := sampleScreen,
    win_screen := sampleScreen, title_screen_2 := sampleScreen,
    trans_flag := 0, rng_ctr := 0 }

/-- A miss in check_collision is a complete no-op for enemy-origin
projectiles. -/
theorem check_collision_miss (p : Projectile) (pl : Player) (en : Enemy)
    (fl : ℕ) (hb : HealthBar) (gs : ℕ) (hp : p.player_spawned = false)
    (hcol : ¬ collides p.pos p.size pl.pos pl.size) :
    p.check_collision pl en fl hb gs = (p, pl, en, fl, hb) := by
  unfold Projectile.check_collision
  rw [if_neg (show ¬(p.player_spawned = true) by simp [hp]), if_neg hcol]

/-- One projectile step of the idle boss run: a stationary enemy-origin
projectile hanging at y = 650 above a player at y = 100 touches nothing. -/
theorem proj_step_W (p : Projectile) (pl : Player) (en : Enemy) (hb : HealthBar)
    (fl : ℕ) (sh : SpriteHolder) (done : List Projectile)
    (hp : p.player_spawned = false) (hy : p.pos.2 = 650) (hv : p.velocity = (0, 0))
    (hply : pl.pos.2 = 100) (hpls : pl.size = (64, 64)) :
    ∃ p2 : Projectile,
      proj_step 6 (pl, en, hb, fl, sh, done) p
        = (pl, en, hb, fl, sh.set_sprite p2.sprite_index p2.sprite, done ++ [p2]) ∧
      p2.player_spawned = false ∧ p2.pos.2 = 650 ∧ p2.velocity = (0, 0) := by
  obtain ⟨m1, m2, m3, m4, m5, m6⟩ := move_proj_fields_ne1 p hb fl 6 (by omega)
  have hy2 : (p.move_proj hb fl 6).1.pos.2 = 650 := by
    rw [m6]
    dsimp only
    rw [hy, hv]
    norm_num
  have hv2 : (p.move_proj hb fl 6).1.velocity = (0, 0) := by rw [m4, hv]
  have hp2 : (p.move_proj hb fl 6).1.player_spawned = false := by rw [m3]; exact hp
  have hnc : ¬ collides (p.move_proj hb fl 6).1.pos (p.move_proj hb fl 6).1.size
      pl.pos pl.size := by
    intro hc
    have h1 := hc.1
    rw [hy2, hply, hpls] at h1
    norm_num at h1
  have hcc := check_collision_miss (p.move_proj hb fl 6).1 pl en
    (p.move_proj hb fl 6).2.2 (p.move_proj hb fl 6).2.1 6 hp2 hnc
  set cc := (p.move_proj hb fl 6).1.check_collision pl en (p.move_proj hb fl 6).2.2
      (p.move_proj hb fl 6).2.1 6 with hccdef
  refine ⟨(p.move_proj hb fl 6).1, ?_, hp2, hy2, hv2⟩
  show (cc.2.1, cc.2.2.1, cc.2.2.2.2, cc.2.2.2.1,
      sh.set_sprite cc.1.sprite_index cc.1.sprite, done ++ [cc.1])
    = (pl, en, hb, fl,
      sh.set_sprite (p.move_proj hb fl 6).1.sprite_index (p.move_proj hb fl 6).1.sprite,
      done ++ [(p.move_proj hb fl 6).1])
  rw [hcc]
  dsimp only
  rw [m1, m2]

/-- The idle-run projectile fold: nothing on the player or enemy side
changes, and every surviving projectile keeps the idle shape. -/
theorem proj_fold_W (l : List Projectile) :
    ∀ (pl : Player) (en : Enemy) (hb : HealthBar) (fl : ℕ) (sh : SpriteHolder)
      (done : List Projectile),
      (∀ p ∈ l, p.player_spawned = false ∧ p.pos.2 = 650 ∧ p.velocity = (0, 0)) →
      pl.pos.2 = 100 → pl.size = (64, 64) →
      (∀ p ∈ done, p.player_spawned = false ∧ p.pos.2 = 650 ∧ p.velocity = (0, 0)) →
      (l.foldl (proj_step 6) (pl, en, hb, fl, sh, done)).1 = pl ∧
      (l.foldl (proj_step 6) (pl, en, hb, fl, sh, done)).2.1 = en ∧
      (l.foldl (proj_step 6) (pl, en, hb, fl, sh, done)).2.2.1 = hb ∧
      (l.foldl (proj_step 6) (pl, en, hb, fl, sh, done)).2.2.2.1 = fl ∧
      (∀ p ∈ (l.foldl (proj_step 6) (pl, en, hb, fl, sh, done)).2.2.2.2.2,
        p.player_spawned = false ∧ p.pos.2 = 650 ∧ p.velocity = (0, 0)) := by
  induction l with
  | nil =>
    intro pl en hb fl sh done _ _ _ hdone
    exact ⟨rfl, rfl, rfl, rfl, hdone⟩
  | cons p t ih =>
    intro pl en hb fl sh done hl hply hpls hdone
    simp only [List.foldl_cons]
    obtain ⟨hp, hy, hv⟩ := hl p (List.mem_cons_self p t)
    obtain ⟨p2, hstep, h2p, h2y, h2v⟩ := proj_step_W p pl en hb fl sh done hp hy hv hply hpls
    rw [hstep]
    exact ih pl en hb fl _ (done ++ [p2])
      (fun q hq => hl q (List.mem_cons_of_mem p hq)) hply hpls
      (by
        intro q hq
        rcases List.mem_append.mp hq with h | h
        · exact hdone q h
        · rw [List.mem_singleton] at h
          subst h
          exact ⟨h2p, h2y, h2v⟩)

/-- The projectile pass of the idle boss run changes no field of interest. -/
theorem proj_phase_W (g : GameStateHolder) (hgs : g.game_state = 6)
    (hl : ∀ p ∈ g.projectiles, p.player_spawned = false ∧ p.pos.2 = 650 ∧
      p.velocity = (0, 0))
    (hply : g.player.pos.2 = 100) (hpls : g.player.size = (64, 64)) :
    (proj_phase g).player = g.player ∧
    (proj_phase g).enemy = g.enemy ∧
    (proj_phase g).player_health_bar = g.player_health_bar ∧
    (proj_phase g).game_state = 6 ∧
    (proj_phase g).trans_flag = g.trans_flag ∧
    (∀ p ∈ (proj_phase g).projectiles, p.player_spawned = false ∧ p.pos.2 = 650 ∧
      p.velocity = (0, 0)) := by
  unfold proj_phase
  dsimp only
  rw [hgs]
  obtain ⟨h1, h2, h3, h4, h5⟩ := proj_fold_W g.projectiles g.player g.enemy.enemy
    g.player_health_bar g.trans_flag g.sprite_holder [] hl hply hpls (by simp)
  refine ⟨h1, ?_, h3, rfl, h4, h5⟩
  rw [h2]

/-- The idle oracle spawns only stationary projectiles. -/
theorem oracle0_velocity (a : ℚ) :
    (oracle0.cos a * 6, oracle0.sin a * 6) = ((0 : ℚ), (0 : ℚ)) := by
  norm_num [oracle0]

/-- One whole frame of the idle boss run: while the boss still has more than
1 health, the run stays in state 6 and keeps the idle-run shape, and the
boss health drops by exactly 1. -/
theorem frame_W (inp : Input) (g : GameStateHolder)
    (hgs : g.game_state = 6) (hfl : g.trans_flag = 0) (hch : g.player.charges = 0)
    (hply : g.player.pos.2 = 100) (hpls : g.player.size = (64, 64))
    (hphb : g.player_health_bar.currval = 1)
    (hproj : ∀ p ∈ g.projectiles, p.player_spawned = false ∧ p.pos.2 = 650 ∧
      p.velocity = (0, 0))
    (hpos : 0 < g.enemy.enemy.health_bar.currval - 1) :
    (main_event_loop oracle0 inp g).game_state = 6 ∧
    (main_event_loop oracle0 inp g).trans_flag = 0 ∧
    (main_event_loop oracle0 inp g).player.charges = 0 ∧
    (main_event_loop oracle0 inp g).player.pos.2 = 100 ∧
    (main_event_loop oracle0 inp g).player.size = (64, 64) ∧
    (main_event_loop oracle0 inp g).player_health_bar.currval = 1 ∧
    (∀ p ∈ (main_event_loop oracle0 inp g).projectiles,
      p.player_spawned = false ∧ p.pos.2 = 650 ∧ p.velocity = (0, 0)) ∧
    (main_event_loop oracle0 inp g).enemy.enemy.health_bar.currval
      = g.enemy.enemy.health_bar.currval - 1 := by
  obtain ⟨i_en, i_pr, i_gs, i_fl, i_rc, i_ch, i_py, i_ps, i_hb⟩ :=
    input_phase_fields inp g hch
  have hgs1 : (input_phase inp g).game_state = 6 := by rw [i_gs, hgs]
  have i_hb1 : (input_phase inp g).player_health_bar.currval = 1 := by
    rw [i_hb, hphb]
    norm_num
  obtain ⟨d_pl, d_pr, d_gs, d_hb, d_rc, d_cv, d_fl⟩ :=
    damage_phase_state6 (input_phase inp g) hgs1
  rw [i_en] at d_cv
  rw [i_en, i_fl, hfl] at d_fl
  have d_fl0 : (damage_phase (input_phase inp g)).trans_flag = 0 := by
    rw [d_fl, if_neg (by intro h; exact absurd hpos (by linarith))]
  obtain ⟨e_pl, e_hb, e_gs, e_fl, e_cv, L, e_pr, e_props⟩ :=
    enemy_phase_fields oracle0 (damage_phase (input_phase inp g))
  rw [d_cv] at e_cv
  have e_cv1 : (enemy_phase oracle0 (damage_phase (input_phase inp g))).enemy.enemy.health_bar.currval
      = g.enemy.enemy.health_bar.currval - 1 := by
    rw [e_cv, if_neg (by linarith)]
  have h3gs : (enemy_phase oracle0 (damage_phase (input_phase inp g))).game_state = 6 := by
    rw [e_gs, d_gs]
  have h3proj : ∀ p ∈ (enemy_phase oracle0 (damage_phase (input_phase inp g))).projectiles,
      p.player_spawned = false ∧ p.pos.2 = 650 ∧ p.velocity = (0, 0) := by
    rw [e_pr]
    intro p hp
    rcases List.mem_append.mp hp with h | h
    · rw [d_pr, i_pr] at h
      exact hproj p h
    · obtain ⟨hq1, hq2, -, a, hq4⟩ := e_props p h
      exact ⟨hq1, hq2, by rw [hq4, oracle0_velocity]⟩
  have h3py : (enemy_phase oracle0 (damage_phase (input_phase inp g))).player.pos.2 = 100 := by
    rw [e_pl, d_pl, i_py, hply]
  have h3ps : (enemy_phase oracle0 (damage_phase (input_phase inp g))).player.size = (64, 64) := by
    rw [e_pl, d_pl, i_ps, hpls]
  obtain ⟨p_pl, p_en, p_hb, p_gs, p_fl, p_proj⟩ :=
    proj_phase_W (enemy_phase oracle0 (damage_phase (input_phase inp g))) h3gs h3proj h3py h3ps
  obtain ⟨c_pl, c_en, c_gs, c_fl, c_hb, c_sub⟩ :=
    cleanup_phase_fields (proj_phase (enemy_phase oracle0 (damage_phase (input_phase inp g))))
  have hfp : frame_pre oracle0 inp g =
      cleanup_phase (proj_phase (enemy_phase oracle0 (damage_phase (input_phase inp g)))) := rfl
  have f_fl0 : (frame_pre oracle0 inp g).trans_flag = 0 := by
    rw [hfp, c_fl, p_fl, e_fl, d_fl0]
  have hmain : main_event_loop oracle0 inp g = frame_pre oracle0 inp g := by
    show trans_phase (frame_pre oracle0 inp g) = frame_pre oracle0 inp g
    exact trans_phase_zero _ f_fl0
  rw [hmain, hfp]
  refine ⟨by rw [c_gs, p_gs], ?_, ?_, ?_, ?_, ?_, ?_, ?_⟩
  · rw [c_fl, p_fl, e_fl, d_fl0]
  · rw [c_pl, p_pl, e_pl, d_pl, i_ch]
  · rw [c_pl, p_pl]
    exact h3py
  · rw [c_pl, p_pl]
    exact h3ps
  · rw [c_hb, p_hb, e_hb, d_hb]
    exact i_hb1
  · intro p hp
    exact p_proj p (c_sub p hp)
  · rw [c_en, p_en]
    exact e_cv1

/-- The idle boss run stays in state 6 through frame 1799, keeping the
idle-run shape, with the boss health at exactly 1800 - k after k frames. -/
theorem W_run : ∀ k : ℕ, k ≤ 1799 →
    (iterFrame oracle0 IW k gW).game_state = 6 ∧
    (iterFrame oracle0 IW k gW).trans_flag = 0 ∧
    (iterFrame oracle0 IW k gW).player.charges = 0 ∧
    (iterFrame oracle0 IW k gW).player.pos.2 = 100 ∧
    (iterFrame oracle0 IW k gW).player.size = (64, 64) ∧
    (iterFrame oracle0 IW k gW).player_health_bar.currval = 1 ∧
    (∀ p ∈ (iterFrame oracle0 IW k gW).projectiles,
      p.player_spawned = false ∧ p.pos.2 = 650 ∧ p.velocity = (0, 0)) ∧
    (iterFrame oracle0 IW k gW).enemy.enemy.health_bar.currval = 1800 - k := by
  intro k
  induction k with
  | zero =>
    intro _
    refine ⟨rfl, rfl, rfl, rfl, rfl, rfl, ?_, by norm_num [iterFrame, gW, freshEnemy]⟩
    intro p hp
    exact absurd hp (List.not_mem_nil p)
  | succ k ih =>
    intro hk
    obtain ⟨k_gs, k_fl, k_ch, k_py, k_ps, k_hb, k_proj, k_cv⟩ := ih (by omega)
    have hpos : 0 < (iterFrame oracle0 IW k gW).enemy.enemy.health_bar.currval - 1 := by
      rw [k_cv]
      have : (k : ℚ) ≤ 1798 := by exact_mod_cast (by omega : k ≤ 1798)
      linarith
    obtain ⟨w_gs, w_fl, w_ch, w_py, w_ps, w_hb, w_proj, w_cv⟩ :=
      frame_W (IW k) (iterFrame oracle0 IW k gW) k_gs k_fl k_ch k_py k_ps k_hb k_proj hpos
    have hit : iterFrame oracle0 IW (k + 1) gW
        = main_event_loop oracle0 (IW k) (iterFrame oracle0 IW k gW) := rfl
    rw [hit]
    refine ⟨w_gs, w_fl, w_ch, w_py, w_ps, w_hb, w_proj, ?_⟩
    rw [w_cv, k_cv]
    push_cast
    ring

/-- Witness for C10: the idle run against the 1800-health boss with the
all-zero oracle, discharging every hypothesis of the claim theorem. -/
theorem c10_witness :
    (∀ k, k ≤ 1799 →
      (iterFrame oracle0 IW k gW).enemy.enemy.health_bar.currval = 1800 - k) ∧
    (frame_pre oracle0 (IW 1799)
      (iterFrame oracle0 IW 1799 gW)).enemy.enemy.health_bar.currval ≤ 0 ∧
    (frame_pre oracle0 (IW 1799) (iterFrame oracle0 IW 1799 gW)).trans_flag ≠ 0 ∧
    (iterFrame oracle0 IW 1800 gW).game_state ≠ 6 :=
  c10_boss_drain oracle0 IW gW rfl rfl rfl
    (by intro p hp; exact absurd hp (List.not_mem_nil p))
    (by norm_num [gW, freshEnemy])
    (fun k hk => (W_run k hk).1)

end Unit2Game
